import Mathlib

/-! SDL/SDLGLGraphicsContext.cpp : config selection and context negotiation

A shallow embedding of `EGL_FindConfig`, `EGL_Init` and
`SDLGLGraphicsContext::Init`.

* Preprocessor symbols (`USING_GLES2`, `USING_FBDEV`, `USING_EGL`) are the
  fields of `Build`; every `#ifdef` of the source is an `if` on them.
* `EGLint` / `int` values are `Int`.  The arithmetic on the running `score`
  (lines 202-213) is 32-bit: every operation is followed by `toInt32`, the
  two's-complement wrap-around the compiled code performs.  The two small
  sums `colorScore` and `8 - alphaScore` are kept exact; they could leave the
  `int` range only for a size below -700000000, and the wrapped total is the
  same either way.
* Calls into SDL / EGL are answered by an explicit platform record and are
  logged as a list of `Call`s, in program order.
-/

namespace SDLGL

/-! ## Build configuration and EGL constants -/

/-- The preprocessor symbols the source branches on. -/
structure Build where
  usingGLES2 : Bool
  usingFBDEV : Bool
  usingEGL : Bool
  deriving DecidableEq, Repr

/-- Value of `EGL_NONE` in the Khronos header `EGL/egl.h`. -/
def EGL_NONE : Int := 0x3038
/-- Value of `EGL_NON_CONFORMANT_CONFIG` in `EGL/egl.h`. -/
def EGL_NON_CONFORMANT_CONFIG : Int := 0x3051
/-- Value of `EGL_WINDOW_BIT` in `EGL/egl.h`. -/
def EGL_WINDOW_BIT : Int := 0x0004
/-- Value of `EGL_OPENGL_ES2_BIT` in `EGL/egl.h`. -/
def EGL_OPENGL_ES2_BIT : Int := 0x0004
/-- Value of `EGL_OPENGL_BIT` in `EGL/egl.h`. -/
def EGL_OPENGL_BIT : Int := 0x0008
/-- Source line 77: `#define EGL_OPENGL_ES3_BIT_KHR (1 << 6)`. -/
def EGL_OPENGL_ES3_BIT_KHR : Int := 64

/-- The attribute names `EGL_FindConfig` queries. -/
inductive EGLAttr where
  | EGL_RED_SIZE | EGL_GREEN_SIZE | EGL_BLUE_SIZE | EGL_ALPHA_SIZE
  | EGL_DEPTH_SIZE | EGL_STENCIL_SIZE | EGL_LEVEL | EGL_SAMPLES
  | EGL_SAMPLE_BUFFERS | EGL_TRANSPARENT_TYPE | EGL_CONFIG_CAVEAT
  | EGL_SURFACE_TYPE | EGL_RENDERABLE_TYPE
  deriving DecidableEq, Repr

/-- An enumerated config, as seen through `eglGetConfigAttrib`: the value the
platform stores for each queried attribute (a failed query leaves the `0`
that `readConfig` initialises `val` with). -/
structure EGLConfig where
  redSize : Int
  greenSize : Int
  blueSize : Int
  alphaSize : Int
  depthSize : Int
  stencilSize : Int
  level : Int
  samples : Int
  sampleBuffers : Int
  transparentType : Int
  configCaveat : Int
  surfaceType : Int
  renderableType : Int
  deriving DecidableEq, Repr

/-- The value an `int` holds when an arithmetic result is `x`:
two's-complement wrap-around into `-2^31 .. 2^31 - 1`. -/
def toInt32 (x : Int) : Int :=
  (x + 2147483648) % 4294967296 - 2147483648

/-- The lambda `readConfig` (source lines 142-146). -/
def readConfig (config : EGLConfig) : EGLAttr → Int
  | .EGL_RED_SIZE => config.redSize
  | .EGL_GREEN_SIZE => config.greenSize
  | .EGL_BLUE_SIZE => config.blueSize
  | .EGL_ALPHA_SIZE => config.alphaSize
  | .EGL_DEPTH_SIZE => config.depthSize
  | .EGL_STENCIL_SIZE => config.stencilSize
  | .EGL_LEVEL => config.level
  | .EGL_SAMPLES => config.samples
  | .EGL_SAMPLE_BUFFERS => config.sampleBuffers
  | .EGL_TRANSPARENT_TYPE => config.transparentType
  | .EGL_CONFIG_CAVEAT => config.configCaveat
  | .EGL_SURFACE_TYPE => config.surfaceType
  | .EGL_RENDERABLE_TYPE => config.renderableType

/-- The lambda `readConfigMax` (source lines 149-152):
`return val > m ? 1 : val;`. -/
def readConfigMax (config : EGLConfig) (attr : EGLAttr) (m : Int) : Int :=
  let val := readConfig config attr
  if val > m then 1 else val

/-- One column of `scoresTable`: the entries indexed by the source's
anonymous enum `CONFIGNUM .. TOTALSCORE`. -/
structure ScoreColumn where
  CONFIGNUM : Int
  COLORSCORE : Int
  ALPHASCORE : Int
  DEPTHSCORE : Int
  STENCILSCORE : Int
  LEVELSCORE : Int
  SAMPLESSCORE : Int
  SAMPLEBUFFERSCORE : Int
  TRANSPARENTSCORE : Int
  CAVEATSCORE : Int
  SURFACESCORE : Int
  RENDERABLESCOREGLES : Int
  RENDERABLESCOREGL : Int
  TOTALSCORE : Int
  deriving DecidableEq, Repr

/-- Line 135: `vendorName && !strcmp(vendorName, "ARM")`. -/
def avoidAlphaGLES (vendorName : Option String) : Bool :=
  match vendorName with
  | none => false
  | some s => s == "ARM"

/-- Line 218: `renderableGLES3 ? 3 : (renderableGLES2 ? 2 : 0)`. -/
def contextVersionOf (config : EGLConfig) : Int :=
  let renderable := readConfig config .EGL_RENDERABLE_TYPE
  let renderableGLES3 := Int.land renderable EGL_OPENGL_ES3_BIT_KHR != 0
  let renderableGLES2 := Int.land renderable EGL_OPENGL_ES2_BIT != 0
  if renderableGLES3 then 3 else (if renderableGLES2 then 2 else 0)

/-- Lines 153-213 of the loop body: the sub-scores of one config and their
weighted total, as written into column `scoresTableColumn` of the table.
The total is accumulated in `int`, each operation wrapping to 32 bits. -/
def scoreColumn (b : Build) (avoidAlpha : Bool) (scoresTableColumn : Nat)
    (config : EGLConfig) : ScoreColumn :=
  let colorScore := readConfigMax config .EGL_RED_SIZE 8
    + readConfigMax config .EGL_BLUE_SIZE 8 + readConfigMax config .EGL_GREEN_SIZE 8
  let alphaScore := readConfigMax config .EGL_ALPHA_SIZE 8
  let depthScore := readConfig config .EGL_DEPTH_SIZE
  let levelScore : Int := if readConfig config .EGL_LEVEL = 0 then 100 else 0
  let samplesScore : Int := if readConfig config .EGL_SAMPLES = 0 then 100 else 0
  let sampleBufferScore : Int := if readConfig config .EGL_SAMPLE_BUFFERS = 0 then 100 else 0
  let stencilScore := readConfig config .EGL_STENCIL_SIZE
  let transparentScore : Int :=
    if readConfig config .EGL_TRANSPARENT_TYPE = EGL_NONE then 50 else 0
  let caveat := readConfig config .EGL_CONFIG_CAVEAT
  let caveatScore : Int :=
    if caveat = EGL_NONE then 100 else (if caveat = EGL_NON_CONFORMANT_CONFIG then 50 else 0)
  -- #ifndef USING_FBDEV ... #else table entry 0 #endif
  let surfaceType := readConfig config .EGL_SURFACE_TYPE
  let surfaceScore : Int :=
    if b.usingFBDEV then 0 else (if Int.land surfaceType EGL_WINDOW_BIT ≠ 0 then 100 else 0)
  let renderable := readConfig config .EGL_RENDERABLE_TYPE
  let renderableGLES3 := Int.land renderable EGL_OPENGL_ES3_BIT_KHR != 0
  let renderableGLES2 := Int.land renderable EGL_OPENGL_ES2_BIT != 0
  let renderableGL := Int.land renderable EGL_OPENGL_BIT != 0
  let renderableScoreGLES : Int :=
    if b.usingGLES2 then (if renderableGLES3 then 100 else (if renderableGLES2 then 80 else 0))
    else 0
  let renderableScoreGL : Int :=
    if b.usingGLES2 then 0
    else (if renderableGL then 100 else (if renderableGLES3 then 80 else 0))
  let alphaScore :=
    if avoidAlpha && decide (renderableScoreGLES > 0) then 8 - alphaScore else alphaScore
  let score : Int := 0
  let score := toInt32 (score + toInt32 (toInt32 (colorScore * 10) + toInt32 (alphaScore * 2)))
  let score := toInt32 (score + toInt32 (toInt32 (depthScore * 5) + stencilScore))
  let score := toInt32 (score
    + toInt32 (toInt32 (toInt32 (levelScore + samplesScore) + sampleBufferScore)
        + transparentScore))
  let score := toInt32 (score
    + toInt32 (toInt32 (caveatScore + renderableScoreGLES) + renderableScoreGL))
  -- #ifndef USING_FBDEV  score += surfaceScore;  #endif
  let score := if b.usingFBDEV then score else toInt32 (score + surfaceScore)
  { CONFIGNUM := (scoresTableColumn : Int) + 1
    COLORSCORE := colorScore
    ALPHASCORE := alphaScore
    DEPTHSCORE := depthScore
    STENCILSCORE := stencilScore
    LEVELSCORE := levelScore
    SAMPLESSCORE := samplesScore
    SAMPLEBUFFERSCORE := sampleBufferScore
    TRANSPARENTSCORE := transparentScore
    CAVEATSCORE := caveatScore
    SURFACESCORE := surfaceScore
    RENDERABLESCOREGLES := renderableScoreGLES
    RENDERABLESCOREGL := renderableScoreGL
    TOTALSCORE := score }

/-- The local variables of `EGL_FindConfig` that live across loop
iterations (lines 124, 137-140) together with the table filled so far. -/
structure FindState where
  best : Option EGLConfig
  bestScore : Int
  bestContextVersion : Int
  bestConfigNum : Int
  scoresTableColumn : Nat
  scoresTable : List ScoreColumn
  deriving DecidableEq, Repr

/-- Lines 137-140 and 124: the state before the first iteration
(`best = nullptr` is `none`). -/
def FindState.init : FindState :=
  { best := none, bestScore := 0, bestContextVersion := 0, bestConfigNum := 0,
    scoresTableColumn := 0, scoresTable := [] }

/-- One iteration of `for (const EGLConfig &config : configs)`
(lines 141-223). -/
def findStep (b : Build) (avoidAlpha : Bool) (st : FindState) (config : EGLConfig) :
    FindState :=
  let col := scoreColumn b avoidAlpha st.scoresTableColumn config
  let score := col.TOTALSCORE
  let st :=
    if score > st.bestScore then
      { st with
        bestScore := score
        best := some config
        bestContextVersion := contextVersionOf config
        bestConfigNum := (st.scoresTableColumn : Int) + 1 }
    else st
  { st with
    scoresTable := st.scoresTable ++ [col]
    scoresTableColumn := st.scoresTableColumn + 1 }

/-- The whole loop of lines 141-223. -/
def findLoop (b : Build) (avoidAlpha : Bool) (st : FindState) (configs : List EGLConfig) :
    FindState :=
  configs.foldl (findStep b avoidAlpha) st

/-- What the EGL display answers: whether each of the two `eglGetConfigs`
calls of `EGL_FindConfig` returns `EGL_TRUE`, the configs it enumerates, the
`EGL_VENDOR` string (`none` for a null pointer), and the results of the
calls made by `EGL_Init`.  The display has one fixed set of configs: the
first call reports its size and the second call returns all of them. -/
structure EGLDisplay where
  getConfigsOk1 : Bool
  getConfigsOk2 : Bool
  configs : List EGLConfig
  vendorName : Option String
  /-- Handle returned by `eglCreateContext` (`none` is `EGL_NO_CONTEXT`). -/
  createContext : Option Nat
  /-- Handle returned by `eglCreateWindowSurface` (`none` is `EGL_NO_SURFACE`). -/
  createWindowSurface : Option Nat
  /-- Whether `eglMakeCurrent` returns `EGL_TRUE`. -/
  makeCurrentOk : Bool

/-- `EGLConfig EGL_FindConfig(int *contextVersion)` (lines 80-237).  The
second component is the value of `*contextVersion` on return, given its
value on entry. -/
def EGL_FindConfig (b : Build) (d : EGLDisplay) (contextVersion : Int) :
    Option EGLConfig × Int :=
  let numConfigs := d.configs.length
  if !d.getConfigsOk1 || numConfigs == 0 then (none, contextVersion)
  else if !d.getConfigsOk2 || numConfigs == 0 then (none, contextVersion)
  else
    let st := findLoop b (avoidAlphaGLES d.vendorName) FindState.init d.configs
    (st.best, st.bestContextVersion)

/-- The number printed by `"Heuristics chose config #%d"` (line 233): the
1-based position of the chosen config, `0` when none was chosen. -/
def chosenConfigNum (b : Build) (d : EGLDisplay) : Int :=
  (findLoop b (avoidAlphaGLES d.vendorName) FindState.init d.configs).bestConfigNum

/-- The total score `EGL_FindConfig` assigns to a config (the `TOTALSCORE`
entry of its column): the `int` value of `score` on line 213, which is what
line 215 compares with `bestScore`. -/
def totalScore (b : Build) (vendorName : Option String) (config : EGLConfig) : Int :=
  (scoreColumn b (avoidAlphaGLES vendorName) 0 config).TOTALSCORE

/-! ## Calls into SDL / EGL / the render backend -/

/-- The three attributes `Init` passes to `SDL_GL_SetAttribute`. -/
inductive SDLGLattr where
  | SDL_GL_CONTEXT_MAJOR_VERSION
  | SDL_GL_CONTEXT_MINOR_VERSION
  | SDL_GL_CONTEXT_PROFILE_MASK
  deriving DecidableEq, Repr

/-- Value of `SDL_GL_CONTEXT_PROFILE_CORE` in `SDL_video.h`. -/
def SDL_GL_CONTEXT_PROFILE_CORE : Int := 0x0001
/-- Value of `SDL_GL_CONTEXT_PROFILE_ES` in `SDL_video.h`. -/
def SDL_GL_CONTEXT_PROFILE_ES : Int := 0x0004

/-- The context attributes SDL holds pending for the next window / context
creation: what the latest `SDL_GL_SetAttribute` calls stored. -/
structure GLAttrs where
  profileMask : Int
  major : Int
  minor : Int
  deriving DecidableEq, Repr

/-- The external calls made by `Init` and `EGL_Init`, with the results the
platform gave.  Window and context handles are natural numbers, `none` is a
null handle.  Arguments that do not influence control flow (title, position,
size, mode flags) are left out. -/
inductive Call where
  | SDL_GL_SetAttribute (attr : SDLGLattr) (value : Int)
  | SetGLCoreContext (flag : Bool)
  | SDL_CreateWindow (pending : GLAttrs) (result : Option Nat)
  | SDL_GL_CreateContext (window : Nat) (result : Option Nat)
  | SDL_DestroyWindow (window : Nat)
  | SDL_ShowWindow (window : Option Nat)
  | NativeShutdown
  | SDL_Quit
  | eglCreateContext (config : EGLConfig) (clientVersion : Option Int) (result : Option Nat)
  | eglCreateWindowSurface (config : EGLConfig) (result : Option Nat)
  | eglMakeCurrent (surface : Option Nat) (context : Option Nat) (result : Bool)
  | glewInit (result : Bool)
  | CheckGLExtensions
  | T3DCreateGLContext
  | SetGPUBackend
  | CreatePresets (result : Bool)
  | SetSwapFunction
  deriving DecidableEq, Repr

/-! ## `EGL_Init` -/

/-- The file-level statics `g_eglDisplay`, `g_eglContext`, `g_eglSurface`,
`g_Display` (lines 20-28); `none` is `NULL`. -/
structure EGLGlobals where
  g_eglDisplay : Option Nat
  g_eglContext : Option Nat
  g_eglSurface : Option Nat
  g_Display : Option Nat
  deriving DecidableEq, Repr

/-- Result of `EGL_Init`: the returned `int8_t`, the statics afterwards and
the calls made. -/
structure EGLInitResult where
  status : Int
  globals : EGLGlobals
  calls : List Call
  deriving DecidableEq, Repr

/-- `int8_t EGL_Init(SDL_Window *window)` (lines 239-282). -/
def EGL_Init (b : Build) (d : EGLDisplay) (g : EGLGlobals) : EGLInitResult :=
  let contextVersion : Int := 0
  let (eglConfig, contextVersion) := EGL_FindConfig b d contextVersion
  match eglConfig with
  | none => { status := 1, globals := g, calls := [] }
  | some eglConfig =>
    -- contextAttributes: the client version is dropped when it is 0
    let clientVersion : Option Int := if contextVersion = 0 then none else some contextVersion
    let g := { g with g_eglContext := d.createContext }
    let calls := [Call.eglCreateContext eglConfig clientVersion d.createContext]
    if g.g_eglContext = none then { status := 1, globals := g, calls := calls }
    else
      let g := { g with g_eglSurface := d.createWindowSurface }
      let calls := calls ++ [Call.eglCreateWindowSurface eglConfig d.createWindowSurface]
      if g.g_eglSurface = none then { status := 1, globals := g, calls := calls }
      else
        let calls := calls ++ [Call.eglMakeCurrent g.g_eglSurface g.g_eglContext d.makeCurrentOk]
        if d.makeCurrentOk = false then { status := 1, globals := g, calls := calls }
        else { status := 0, globals := g, calls := calls }

/-! ## `SDLGLGraphicsContext::Init` -/

/-- `struct GLVersionPair` (lines 310-313). -/
structure GLVersionPair where
  major : Int
  minor : Int
  deriving DecidableEq, Repr

/-- The array `attemptVersions` (lines 314-321). -/
def attemptVersions (b : Build) : List GLVersionPair :=
  if b.usingGLES2 then
    [⟨3, 2⟩, ⟨3, 1⟩, ⟨3, 0⟩, ⟨2, 0⟩]
  else
    [⟨4, 6⟩, ⟨4, 5⟩, ⟨4, 4⟩, ⟨4, 3⟩, ⟨4, 2⟩, ⟨4, 1⟩, ⟨4, 0⟩,
     ⟨3, 3⟩, ⟨3, 2⟩, ⟨3, 1⟩, ⟨3, 0⟩]

/-- How SDL and GLEW answer.  `createWindow k` tells whether the `k`-th call
(counting from 0) of `SDL_CreateWindow` returns a window, and
`createContext k` whether `SDL_GL_CreateContext` succeeds on the window that
call returned.  As `Init` is deterministic, the position of a call
determines everything that happened before it, so this covers every way the
platform can answer. -/
structure SDLPlatform where
  createWindow : Nat → Bool
  createContext : Nat → Bool
  glewInitOk : Bool
  glewVersion20 : Bool
  createPresetsOk : Bool

/-- Local and SDL-side state while `Init` runs: SDL's pending context
attributes, the reference parameter `window`, the local `glContext`, the
number of `SDL_CreateWindow` calls so far, and the calls made. -/
structure SDLState where
  pending : GLAttrs
  window : Option Nat
  glContext : Option Nat
  windowCalls : Nat
  log : List Call
  deriving DecidableEq, Repr

/-- Effect of `SDL_GL_SetAttribute(attr, value)`. -/
def SDL_GL_SetAttribute (st : SDLState) (attr : SDLGLattr) (value : Int) : SDLState :=
  let pending :=
    match attr with
    | .SDL_GL_CONTEXT_MAJOR_VERSION => { st.pending with major := value }
    | .SDL_GL_CONTEXT_MINOR_VERSION => { st.pending with minor := value }
    | .SDL_GL_CONTEXT_PROFILE_MASK => { st.pending with profileMask := value }
  { st with pending := pending, log := st.log ++ [Call.SDL_GL_SetAttribute attr value] }

/-- Effect of `SetGLCoreContext(flag)`. -/
def SetGLCoreContext (st : SDLState) (flag : Bool) : SDLState :=
  { st with log := st.log ++ [Call.SetGLCoreContext flag] }

/-- Effect of `window = SDL_CreateWindow(...)`: a fresh handle or null. -/
def SDL_CreateWindow (p : SDLPlatform) (st : SDLState) : SDLState :=
  let result := if p.createWindow st.windowCalls then some st.windowCalls else none
  { st with
    window := result
    windowCalls := st.windowCalls + 1
    log := st.log ++ [Call.SDL_CreateWindow st.pending result] }

/-- Effect of `glContext = SDL_GL_CreateContext(window)`. -/
def SDL_GL_CreateContext (p : SDLPlatform) (st : SDLState) (window : Nat) : SDLState :=
  let result := if p.createContext window then some window else none
  { st with
    glContext := result
    log := st.log ++ [Call.SDL_GL_CreateContext window result] }

/-- Effect of `SDL_DestroyWindow(window)`; the variable `window` keeps its
(now dangling) value. -/
def SDL_DestroyWindow (st : SDLState) (window : Nat) : SDLState :=
  { st with log := st.log ++ [Call.SDL_DestroyWindow window] }

/-- The loop `for (size_t i = 0; i < ARRAY_SIZE(attemptVersions); ++i)`
(lines 328-359), over the versions not yet tried. -/
def attemptLoop (b : Build) (p : SDLPlatform) : List GLVersionPair → SDLState → SDLState
  | [], st => st
  | ver :: rest, st =>
    let st := SDL_GL_SetAttribute st .SDL_GL_CONTEXT_MAJOR_VERSION ver.major
    let st := SDL_GL_SetAttribute st .SDL_GL_CONTEXT_MINOR_VERSION ver.minor
    let st :=
      if b.usingGLES2 then
        SetGLCoreContext
          (SDL_GL_SetAttribute st .SDL_GL_CONTEXT_PROFILE_MASK SDL_GL_CONTEXT_PROFILE_ES) false
      else
        SetGLCoreContext
          (SDL_GL_SetAttribute st .SDL_GL_CONTEXT_PROFILE_MASK SDL_GL_CONTEXT_PROFILE_CORE) true
    let st := SDL_CreateWindow p st
    match st.window with
    | none => attemptLoop b p rest st  -- continue
    | some window =>
      let st := SDL_GL_CreateContext p st window
      match st.glContext with
      | some _ => st  -- break
      | none => attemptLoop b p rest (SDL_DestroyWindow st window)

/-- The state in which `Init` enters its loop: `glContext = nullptr`
(line 327), no call made yet; the caller's `window` is taken to be null. -/
def SDLState.entry (pending0 : GLAttrs) : SDLState :=
  { pending := pending0, window := none, glContext := none, windowCalls := 0, log := [] }

/-- Result of `Init`: the returned status (`none` when `assert(success)`
aborts the process instead of returning), the calls made, the reference
parameter `window` and the EGL statics afterwards. -/
structure InitResult where
  status : Option Int
  log : List Call
  window : Option Nat
  globals : EGLGlobals
  deriving DecidableEq, Repr

/-- Lines 384-431 of `Init`: what happens once a context exists.  `ndebug`
tells whether `assert` is compiled out. -/
def finishInit (b : Build) (ndebug : Bool) (p : SDLPlatform) (d : EGLDisplay)
    (g : EGLGlobals) (st : SDLState) : InitResult :=
  let log := st.log ++ [Call.SDL_ShowWindow st.window]
  -- #ifdef USING_EGL
  let e : EGLInitResult :=
    if b.usingEGL then EGL_Init b d g else { status := 0, globals := g, calls := [] }
  let log := log ++ e.calls
  if e.status ≠ 0 then { status := some 1, log := log, window := st.window, globals := e.globals }
  else
    -- #ifndef USING_GLES2
    let glew : Option (List Call) :=
      if b.usingGLES2 then some []
      else if p.glewInitOk = false then none
      else if p.glewVersion20 then some [Call.glewInit true] else none
    match glew with
    | none =>
      { status := some 1, log := log ++ [Call.glewInit p.glewInitOk], window := st.window,
        globals := e.globals }
    | some glewCalls =>
      let log := log ++ glewCalls
        ++ [Call.CheckGLExtensions, Call.T3DCreateGLContext, Call.SetGPUBackend,
            Call.CreatePresets p.createPresetsOk]
      if !ndebug && !p.createPresetsOk then
        { status := none, log := log, window := st.window, globals := e.globals }
      else
        { status := some 0, log := log ++ [Call.SetSwapFunction], window := st.window,
          globals := e.globals }

/-- `int SDLGLGraphicsContext::Init(...)` (lines 309-432).  `pending0` is
what SDL holds as context attributes on entry. -/
def Init (b : Build) (ndebug : Bool) (p : SDLPlatform) (d : EGLDisplay) (g : EGLGlobals)
    (pending0 : GLAttrs) : InitResult :=
  let st := SDLState.entry pending0
  let st := attemptLoop b p (attemptVersions b) st
  if st.glContext = none then
    let st := SDL_GL_SetAttribute st .SDL_GL_CONTEXT_PROFILE_MASK 0
    let st := SDL_GL_SetAttribute st .SDL_GL_CONTEXT_MAJOR_VERSION 0
    let st := SDL_GL_SetAttribute st .SDL_GL_CONTEXT_MINOR_VERSION 0
    let st := SetGLCoreContext st false
    let st := SDL_CreateWindow p st
    match st.window with
    | none =>
      { status := some 2, log := st.log ++ [Call.NativeShutdown, Call.SDL_Quit],
        window := st.window, globals := g }
    | some window =>
      let st := SDL_GL_CreateContext p st window
      if st.glContext = none then
        { status := some 2, log := st.log ++ [Call.NativeShutdown, Call.SDL_Quit],
          window := st.window, globals := g }
      else finishInit b ndebug p d g st
  else finishInit b ndebug p d g st

/-- The context attributes requested at each `SDL_CreateWindow` call of a
log, in call order: the attempts that were made. -/
def windowAttempts (log : List Call) : List GLAttrs :=
  log.filterMap fun c =>
    match c with
    | Call.SDL_CreateWindow pending _ => some pending
    | _ => none

/-- The attributes `Init` requests for a version candidate (lines 332-340). -/
def candidateAttrs (b : Build) (ver : GLVersionPair) : GLAttrs :=
  { profileMask := if b.usingGLES2 then SDL_GL_CONTEXT_PROFILE_ES else SDL_GL_CONTEXT_PROFILE_CORE
    major := ver.major
    minor := ver.minor }

/-- The attributes of the unconstrained attempt (lines 362-364). -/
def unconstrainedAttrs : GLAttrs := { profileMask := 0, major := 0, minor := 0 }

/-- Attempt `k` succeeds: the `k`-th `SDL_CreateWindow` call returns a window
and `SDL_GL_CreateContext` succeeds on it. -/
def attemptOk (p : SDLPlatform) (k : Nat) : Bool :=
  p.createWindow k && p.createContext k

/-! ## The loop invariant of `EGL_FindConfig` -/

/-- Loop invariant of lines 141-223 after the configs `pre` were visited. -/
def FindInv (b : Build) (a : Bool) (pre : List EGLConfig) (st : FindState) : Prop :=
  st.scoresTableColumn = pre.length ∧
  0 ≤ st.bestScore ∧
  (∀ c ∈ pre, (scoreColumn b a 0 c).TOTALSCORE ≤ st.bestScore) ∧
  ((st.best = none ∧ st.bestScore = 0 ∧ st.bestContextVersion = 0 ∧ st.bestConfigNum = 0) ∨
   (∃ (i : Nat) (c : EGLConfig), pre[i]? = some c ∧ st.best = some c ∧ st.bestConfigNum = (i : Int) + 1 ∧
      st.bestScore = (scoreColumn b a 0 c).TOTALSCORE ∧ 0 < st.bestScore ∧
      st.bestContextVersion = contextVersionOf c ∧
      ∀ (j : Nat) (c' : EGLConfig), j < i → pre[j]? = some c' →
        (scoreColumn b a 0 c').TOTALSCORE < st.bestScore))

/-! ## Description of the calls of one attempt -/

/-- The calls with which a loop iteration requests a version (lines 332-340). -/
def requestCalls (b : Build) (ver : GLVersionPair) : List Call :=
  [Call.SDL_GL_SetAttribute .SDL_GL_CONTEXT_MAJOR_VERSION ver.major,
   Call.SDL_GL_SetAttribute .SDL_GL_CONTEXT_MINOR_VERSION ver.minor,
   Call.SDL_GL_SetAttribute .SDL_GL_CONTEXT_PROFILE_MASK (candidateAttrs b ver).profileMask,
   Call.SetGLCoreContext (!b.usingGLES2)]

/-- The calls of an iteration, the `k`-th attempt, that ends in `break`. -/
def successCalls (b : Build) (k : Nat) (ver : GLVersionPair) : List Call :=
  requestCalls b ver
    ++ [Call.SDL_CreateWindow (candidateAttrs b ver) (some k),
        Call.SDL_GL_CreateContext k (some k)]

/-- The calls of an iteration, the `k`-th attempt, that does not get a
context. -/
def failureCalls (b : Build) (p : SDLPlatform) (k : Nat) (ver : GLVersionPair) : List Call :=
  requestCalls b ver
    ++ (if p.createWindow k then
          [Call.SDL_CreateWindow (candidateAttrs b ver) (some k),
           Call.SDL_GL_CreateContext k none,
           Call.SDL_DestroyWindow k]
        else [Call.SDL_CreateWindow (candidateAttrs b ver) none])

/-- The calls of consecutive failing iterations, the first being attempt `k`. -/
def failuresCalls (b : Build) (p : SDLPlatform) : Nat → List GLVersionPair → List Call
  | _, [] => []
  | k, ver :: rest => failureCalls b p k ver ++ failuresCalls b p (k + 1) rest

/-- The windows passed to `SDL_ShowWindow` in a log, in call order. -/
def shownWindows (log : List Call) : List (Option Nat) :=
  log.filterMap fun c =>
    match c with
    | Call.SDL_ShowWindow w => some w
    | _ => none

/-- The calls that clear the version constraints (lines 362-365). -/
def fallbackRequestCalls : List Call :=
  [Call.SDL_GL_SetAttribute .SDL_GL_CONTEXT_PROFILE_MASK 0,
   Call.SDL_GL_SetAttribute .SDL_GL_CONTEXT_MAJOR_VERSION 0,
   Call.SDL_GL_SetAttribute .SDL_GL_CONTEXT_MINOR_VERSION 0,
   Call.SetGLCoreContext false]

/-! ## Inputs used by the concrete checks -/

/-- A desktop, windowed, EGL build. -/
def desktopBuild : Build := { usingGLES2 := false, usingFBDEV := false, usingEGL := true }

/-- An ES-only, windowed, EGL build. -/
def esBuild : Build := { usingGLES2 := true, usingFBDEV := false, usingEGL := true }

/-- A display enumerating `configs`, on which every call succeeds. -/
def displayOf (configs : List EGLConfig) (vendorName : Option String) : EGLDisplay :=
  { getConfigsOk1 := true, getConfigsOk2 := true, configs := configs,
    vendorName := vendorName, createContext := some 1, createWindowSurface := some 1,
    makeCurrentOk := true }

/-- A usual RGBA8888 window config with 24-bit depth and 8-bit stencil,
renderable by ES2, ES3 and desktop GL. -/
def rgba8888 : EGLConfig :=
  { redSize := 8, greenSize := 8, blueSize := 8, alphaSize := 8, depthSize := 24,
    stencilSize := 8, level := 0, samples := 0, sampleBuffers := 0,
    transparentType := EGL_NONE, configCaveat := EGL_NONE, surfaceType := 4,
    renderableType := 76 }

/-- An RGB565 window config with 16-bit depth, renderable by ES2 only. -/
def rgb565 : EGLConfig :=
  { redSize := 5, greenSize := 6, blueSize := 5, alphaSize := 0, depthSize := 16,
    stencilSize := 0, level := 0, samples := 0, sampleBuffers := 0,
    transparentType := EGL_NONE, configCaveat := EGL_NONE, surfaceType := 4,
    renderableType := 4 }

/-- A config every sub-score of which is 0: a luminance-only (no RGB bits),
multisampled, slow (`EGL_SLOW_CONFIG` = 0x3050), overlay-level, pbuffer-only
(`EGL_PBUFFER_BIT` = 1) config with RGB transparency
(`EGL_TRANSPARENT_RGB` = 0x3052) that renders ES1 only
(`EGL_OPENGL_ES_BIT` = 1).  All attributes are non-negative. -/
def zeroScoreConfig : EGLConfig :=
  { redSize := 0, greenSize := 0, blueSize := 0, alphaSize := 0, depthSize := 0,
    stencilSize := 0, level := 1, samples := 4, sampleBuffers := 1,
    transparentType := 0x3052, configCaveat := 0x3050, surfaceType := 1,
    renderableType := 1 }

/-- A config with red size 8, green size 9 and blue size 0. -/
def rgb890 : EGLConfig := { rgb565 with redSize := 8, greenSize := 9, blueSize := 0 }

/-- A platform on which the first window creation fails and every later
attempt succeeds. -/
def secondAttemptOk : SDLPlatform :=
  { createWindow := fun k => k != 0, createContext := fun _ => true,
    glewInitOk := true, glewVersion20 := true, createPresetsOk := true }

/-- A platform on which no context can be created. -/
def noContext : SDLPlatform :=
  { createWindow := fun _ => true, createContext := fun _ => false,
    glewInitOk := true, glewVersion20 := true, createPresetsOk := true }

/-- The EGL statics before anything was opened. -/
def EGLGlobals.null : EGLGlobals :=
  { g_eglDisplay := none, g_eglContext := none, g_eglSurface := none, g_Display := none }

/-! ## Teardown: `EGL_Close` and `ShutdownFromRenderThread` -/

/-- The release calls made by teardown, with the handles they are given. -/
inductive CloseCall where
  /-- The destructor run by `delete draw_` on a non-null pointer. -/
  | deleteDraw (draw : Nat)
  /-- The call `eglMakeCurrent(g_eglDisplay, NULL, NULL, EGL_NO_CONTEXT)`. -/
  | eglMakeCurrentNone (display : Nat)
  | eglDestroyContext (display : Nat) (context : Nat)
  | eglDestroySurface (display : Nat) (surface : Nat)
  | eglTerminate (display : Nat)
  | XCloseDisplay (display : Nat)
  /-- The call `SDL_GL_DeleteContext(glContext)`; `none` is a null argument. -/
  | SDL_GL_DeleteContext (context : Option Nat)
  deriving DecidableEq, Repr

/-- `void EGL_Close()` (lines 284-304): the statics afterwards and the calls
made. -/
def EGL_Close (b : Build) (g : EGLGlobals) : EGLGlobals × List CloseCall :=
  let (g, calls) :=
    match g.g_eglDisplay with
    | some display =>
      let calls := [CloseCall.eglMakeCurrentNone display]
      let calls :=
        match g.g_eglContext with
        | some context => calls ++ [CloseCall.eglDestroyContext display context]
        | none => calls
      let calls :=
        match g.g_eglSurface with
        | some surface => calls ++ [CloseCall.eglDestroySurface display surface]
        | none => calls
      let calls := calls ++ [CloseCall.eglTerminate display]
      ({ g with g_eglDisplay := none }, calls)
    | none => (g, [])
  let (g, calls) :=
    match g.g_Display with
    | some display =>
      -- #if !defined(USING_FBDEV)  XCloseDisplay(g_Display);  #endif
      let calls := if b.usingFBDEV then calls else calls ++ [CloseCall.XCloseDisplay display]
      ({ g with g_Display := none }, calls)
    | none => (g, calls)
  ({ g with g_eglSurface := none, g_eglContext := none }, calls)

/-- The data members of `SDLGLGraphicsContext` that teardown reads: `draw_`,
and the `glContext` named on line 444 (no local of that name exists in
`ShutdownFromRenderThread`; the variable is declared outside this file).
Nothing in the file assigns that `glContext`: the `glContext` that `Init`
assigns on lines 350 and 375 is the local declared on line 327.  So in every
state the file's code produces it is null (`none`). -/
structure SDLGLGraphicsContext where
  draw_ : Option Nat
  glContext : Option Nat
  deriving DecidableEq, Repr

/-- `void SDLGLGraphicsContext::ShutdownFromRenderThread()` (lines 437-446):
the object and the EGL statics afterwards, and the calls made. -/
def ShutdownFromRenderThread (b : Build) (self : SDLGLGraphicsContext) (g : EGLGlobals) :
    SDLGLGraphicsContext × EGLGlobals × List CloseCall :=
  -- delete draw_;  (a null pointer is ignored)
  let calls : List CloseCall :=
    match self.draw_ with
    | some draw => [CloseCall.deleteDraw draw]
    | none => []
  let self := { self with draw_ := none }
  if b.usingEGL then
    let (g, closeCalls) := EGL_Close b g
    (self, g, calls ++ closeCalls)
  else
    (self, g, calls ++ [CloseCall.SDL_GL_DeleteContext self.glContext])

/-- The handles a list of teardown calls releases (destroys, deletes,
terminates or closes), in call order.  `eglMakeCurrentNone` releases nothing
and a null argument is no handle. -/
def releasedHandles (calls : List CloseCall) : List CloseCall :=
  calls.filter fun c =>
    match c with
    | CloseCall.eglMakeCurrentNone _ => false
    | CloseCall.SDL_GL_DeleteContext none => false
    | _ => true

/-! ## Windows along a log -/

/-- The handles returned by successful `SDL_CreateWindow` calls, in order. -/
def createdWindows (log : List Call) : List Nat :=
  log.filterMap fun c =>
    match c with
    | Call.SDL_CreateWindow _ (some w) => some w
    | _ => none

/-- The windows passed to `SDL_DestroyWindow`, in call order. -/
def destroyedWindows (log : List Call) : List Nat :=
  log.filterMap fun c =>
    match c with
    | Call.SDL_DestroyWindow w => some w
    | _ => none

/-- The windows on which `SDL_GL_CreateContext` returned null, in call order. -/
def contextFailures (log : List Call) : List Nat :=
  log.filterMap fun c =>
    match c with
    | Call.SDL_GL_CreateContext w none => some w
    | _ => none

/-- Whether no `SDL_DestroyWindow` call comes directly after an
`SDL_CreateWindow` call that returned null; `prevFailed` tells whether the
call before the log was such a failed creation. -/
def noDestroyAfterFailedCreate (prevFailed : Bool) : List Call → Bool
  | [] => true
  | c :: rest =>
    (match c with
      | Call.SDL_DestroyWindow _ => !prevFailed
      | _ => true)
    && noDestroyAfterFailedCreate
        (match c with
          | Call.SDL_CreateWindow _ none => true
          | _ => false)
        rest

/-- Effect of one call on the list of windows that exist (created and not
destroyed). -/
def stepLive (live : List Nat) (c : Call) : List Nat :=
  match c with
  | Call.SDL_CreateWindow _ (some w) => live ++ [w]
  | Call.SDL_DestroyWindow w => live.filter fun x => x != w
  | _ => live

/-- The windows that exist after a log, starting from `live`. -/
def liveAfter (live : List Nat) (log : List Call) : List Nat :=
  log.foldl stepLive live

/-- The windows that exist after each call of a log, starting from `live`:
one entry per point of the run. -/
def liveHistory (live : List Nat) : List Call → List (List Nat)
  | [] => []
  | c :: rest => stepLive live c :: liveHistory (stepLive live c) rest

/-! ## Order on versions -/

/-- Lexicographic order on (major, minor): `a` is a lower version than `b`. -/
def GLVersionPair.lexLt (a b : GLVersionPair) : Prop :=
  a.major < b.major ∨ (a.major = b.major ∧ a.minor < b.minor)

/-- The config of the end-to-end scenario: the attributes the scenario fixes
(depth, stencil, samples; caveat `EGL_NONE`, surface type `EGL_WINDOW_BIT`,
renderable type `EGL_OPENGL_BIT`) and the attributes of `other` for the
rest. -/
def scenarioConfig (other : EGLConfig) (depth stencil samples : Int) : EGLConfig :=
  { other with
    depthSize := depth
    stencilSize := stencil
    samples := samples
    configCaveat := EGL_NONE
    surfaceType := EGL_WINDOW_BIT
    renderableType := EGL_OPENGL_BIT }

/-- A non-EGL desktop build. -/
def sdlDesktopBuild : Build := { usingGLES2 := false, usingFBDEV := false, usingEGL := false }

/-- A fully initialised EGL state: display 1, context 2, surface 3, native
display 4. -/
def EGLGlobals.live : EGLGlobals :=
  { g_eglDisplay := some 1, g_eglContext := some 2, g_eglSurface := some 3, g_Display := some 4 }

/-- An object whose draw context is 5 and whose `glContext` is 7. -/
def liveContext : SDLGLGraphicsContext := { draw_ := some 5, glContext := some 7 }

/-- The columns the loop appends to `scoresTable` for the configs `configs`
when the first of them gets column index `k`. -/
def tableColumns (b : Build) (avoidAlpha : Bool) : Nat → List EGLConfig → List ScoreColumn
  | _, [] => []
  | k, c :: rest => scoreColumn b avoidAlpha k c :: tableColumns b avoidAlpha (k + 1) rest

/-- The weighted sum of the specification,
`10*colorScore + 2*alphaScore + 5*depthScore + stencilScore + levelScore +
samplesScore + sampleBufferScore + transparentScore + caveatScore +
renderableScoreES + renderableScoreDesktop + surfaceScore`, as a mathematical
integer, formed from the sub-scores of a column and a surface term. -/
def specTotal (col : ScoreColumn) (surfaceScore : Int) : Int :=
  10 * col.COLORSCORE + 2 * col.ALPHASCORE + 5 * col.DEPTHSCORE + col.STENCILSCORE
    + col.LEVELSCORE + col.SAMPLESSCORE + col.SAMPLEBUFFERSCORE + col.TRANSPARENTSCORE
    + col.CAVEATSCORE + col.RENDERABLESCOREGLES + col.RENDERABLESCOREGL + surfaceScore

/-- The RGBA8888 config with a depth size of 500000000: its weighted sum,
2500000914 on the desktop build, does not fit in an `int`. -/
def hugeDepth : EGLConfig := { rgba8888 with depthSize := 500000000 }

/-- An object before initialisation has completed, with a draw context 5:
`glContext` is null. -/
def freshContext : SDLGLGraphicsContext := { draw_ := some 5, glContext := none }

/-! ## Lemmas on masks -/

/-- Masking with a single bit is non-zero exactly when that bit is set
(two's complement, also for negative values). -/
theorem land_two_pow_ne_zero (x : Int) (k : Nat) :
    Int.land x ((2 : Int) ^ k) ≠ 0 ↔ Int.testBit x k = true := by
  have h2 : ((2 : Int) ^ k) = ((2 ^ k : Nat) : Int) := by push_cast; rfl
  rw [h2]
  cases x with
  | ofNat m =>
    show ((m &&& 2 ^ k : Nat) : Int) ≠ 0 ↔ m.testBit k = true
    rw [Nat.and_two_pow]
    cases h : m.testBit k <;> simp
  | negSucc m =>
    show ((Nat.ldiff (2 ^ k) m : Nat) : Int) ≠ 0 ↔ (!m.testBit k) = true
    have hl : Nat.ldiff (2 ^ k) m = if m.testBit k then 0 else 2 ^ k := by
      apply Nat.eq_of_testBit_eq
      intro i
      rw [Nat.testBit_ldiff, Nat.testBit_two_pow]
      by_cases hki : k = i
      · subst hki
        cases h : m.testBit k <;> simp [Nat.testBit_two_pow]
      · cases h : m.testBit k <;> simp [hki, Nat.testBit_two_pow]
    rw [hl]
    cases h : m.testBit k <;> simp

theorem land_bne_zero (x : Int) (k : Nat) :
    (Int.land x ((2 : Int) ^ k) != 0) = Int.testBit x k := by
  have h := land_two_pow_ne_zero x k
  cases hb : Int.testBit x k
  · rw [hb] at h
    have : Int.land x ((2 : Int) ^ k) = 0 := by
      by_contra hne
      exact absurd (h.mp hne) (by simp)
    simp [this]
  · rw [hb] at h
    have := h.mpr rfl
    simpa using this

theorem window_bit (x : Int) : (Int.land x EGL_WINDOW_BIT ≠ 0) ↔ Int.testBit x 2 = true :=
  land_two_pow_ne_zero x 2

theorem es3_bit (x : Int) : (Int.land x EGL_OPENGL_ES3_BIT_KHR != 0) = Int.testBit x 6 :=
  land_bne_zero x 6

theorem es2_bit (x : Int) : (Int.land x EGL_OPENGL_ES2_BIT != 0) = Int.testBit x 2 :=
  land_bne_zero x 2

theorem gl_bit (x : Int) : (Int.land x EGL_OPENGL_BIT != 0) = Int.testBit x 3 :=
  land_bne_zero x 3

/-! ## 32-bit arithmetic -/

theorem toInt32_of_range (x : Int) (h1 : -2147483648 ≤ x) (h2 : x ≤ 2147483647) :
    toInt32 x = x := by
  unfold toInt32
  omega

theorem toInt32_range (x : Int) : -2147483648 ≤ toInt32 x ∧ toInt32 x ≤ 2147483647 := by
  unfold toInt32
  omega

theorem toInt32_add_right (a b : Int) : toInt32 (a + toInt32 b) = toInt32 (a + b) := by
  unfold toInt32
  omega

theorem toInt32_add_left (a b : Int) : toInt32 (toInt32 a + b) = toInt32 (a + b) := by
  unfold toInt32
  omega

/-- The total the loop records is the weighted sum of the recorded
sub-scores, reduced to the `int` range. -/
theorem scoreColumn_total_spec (b : Build) (a : Bool) (n : Nat) (c : EGLConfig) :
    (scoreColumn b a n c).TOTALSCORE
      = toInt32 (specTotal (scoreColumn b a n c) (scoreColumn b a n c).SURFACESCORE) := by
  simp only [scoreColumn, specTotal, toInt32_add_left, toInt32_add_right, zero_add]
  cases b.usingFBDEV
  · simp only [Bool.false_eq_true, if_false, toInt32_add_left]
    congr 1
    ring
  · simp only [if_true]
    congr 1
    ring

/-- At a depth size of 500000000 the total wraps: it is negative, the
config loses against RGB565, and alone it is not selected at all. -/
theorem totalScore_wraps :
    totalScore desktopBuild none hugeDepth = -1794966382 ∧
    (EGL_FindConfig desktopBuild (displayOf [hugeDepth, rgb565] none) 0).1 = some rgb565 ∧
    (EGL_FindConfig desktopBuild (displayOf [hugeDepth] none) 0).1 = none := by
  decide

/-! ## The selection loop -/

/-- The column index does not enter the total. -/
theorem scoreColumn_total (b : Build) (a : Bool) (n : Nat) (c : EGLConfig) :
    (scoreColumn b a n c).TOTALSCORE = (scoreColumn b a 0 c).TOTALSCORE := rfl

theorem findInv_init (b : Build) (a : Bool) : FindInv b a [] FindState.init := by
  refine ⟨rfl, le_refl _, ?_, Or.inl ⟨rfl, rfl, rfl, rfl⟩⟩
  intro c hc
  cases hc

theorem findInv_step (b : Build) (a : Bool) (pre : List EGLConfig) (st : FindState)
    (c : EGLConfig) (h : FindInv b a pre st) :
    FindInv b a (pre ++ [c]) (findStep b a st c) := by
  obtain ⟨hcol, hnn, hmax, hbest⟩ := h
  have hlt : ∀ j c', j < pre.length → (pre ++ [c])[j]? = some c' → pre[j]? = some c' := by
    intro j c' hj hget
    rwa [List.getElem?_append_left hj] at hget
  by_cases hgt : (scoreColumn b a 0 c).TOTALSCORE > st.bestScore
  · -- the new config replaces the best
    have hstep : findStep b a st c =
        { best := some c, bestScore := (scoreColumn b a 0 c).TOTALSCORE,
          bestContextVersion := contextVersionOf c,
          bestConfigNum := (st.scoresTableColumn : Int) + 1,
          scoresTableColumn := st.scoresTableColumn + 1,
          scoresTable := st.scoresTable ++ [scoreColumn b a st.scoresTableColumn c] } := by
      unfold findStep
      simp only [scoreColumn_total b a st.scoresTableColumn c, if_pos hgt]
    rw [hstep]
    refine ⟨by simp [hcol], le_trans hnn (le_of_lt hgt), ?_, Or.inr ?_⟩
    · intro c' hc'
      rcases List.mem_append.mp hc' with h1 | h1
      · exact le_trans (hmax c' h1) (le_of_lt hgt)
      · rw [List.mem_singleton.mp h1]
    · refine ⟨pre.length, c, by simp, rfl, by simp [hcol], rfl, lt_of_le_of_lt hnn hgt, rfl, ?_⟩
      intro j c' hj hget
      have hmem : c' ∈ pre := List.getElem?_mem (hlt j c' hj hget)
      exact lt_of_le_of_lt (hmax c' hmem) hgt
  · -- the best is kept
    have hstep : findStep b a st c =
        { st with
          scoresTableColumn := st.scoresTableColumn + 1,
          scoresTable := st.scoresTable ++ [scoreColumn b a st.scoresTableColumn c] } := by
      unfold findStep
      simp only [scoreColumn_total b a st.scoresTableColumn c, if_neg hgt]
    rw [hstep]
    refine ⟨by simp [hcol], hnn, ?_, ?_⟩
    · intro c' hc'
      rcases List.mem_append.mp hc' with h1 | h1
      · exact hmax c' h1
      · rw [List.mem_singleton.mp h1]
        exact not_lt.mp hgt
    · rcases hbest with h0 | ⟨i, c0, hget, hb, hnum, hsc, hpos, hver, hfirst⟩
      · exact Or.inl h0
      · refine Or.inr ⟨i, c0, ?_, hb, hnum, hsc, hpos, hver, ?_⟩
        · have hi : i < pre.length := by
            by_contra hge
            rw [List.getElem?_eq_none (not_lt.mp hge)] at hget
            cases hget
          rw [List.getElem?_append_left hi]
          exact hget
        · intro j c' hj hgetj
          have hi : i < pre.length := by
            by_contra hge
            rw [List.getElem?_eq_none (not_lt.mp hge)] at hget
            cases hget
          exact hfirst j c' hj (hlt j c' (lt_trans hj hi) hgetj)

theorem findInv_loop (b : Build) (a : Bool) (rest : List EGLConfig) :
    ∀ (pre : List EGLConfig) (st : FindState), FindInv b a pre st →
      FindInv b a (pre ++ rest) (findLoop b a st rest) := by
  induction rest with
  | nil =>
    intro pre st h
    simpa [findLoop] using h
  | cons c rest ih =>
    intro pre st h
    have h1 := ih (pre ++ [c]) (findStep b a st c) (findInv_step b a pre st c h)
    simpa [findLoop] using h1

/-- The invariant holds for the complete run of the loop. -/
theorem findLoop_spec (b : Build) (a : Bool) (configs : List EGLConfig) :
    FindInv b a configs (findLoop b a FindState.init configs) := by
  simpa using findInv_loop b a configs [] FindState.init (findInv_init b a)

/-- When `EGL_FindConfig` returns a config, both enumeration calls succeeded
and the result is the final state of the loop. -/
theorem findConfig_some (b : Build) (d : EGLDisplay) (cv : Int) (c : EGLConfig)
    (h : (EGL_FindConfig b d cv).1 = some c) :
    EGL_FindConfig b d cv =
      ((findLoop b (avoidAlphaGLES d.vendorName) FindState.init d.configs).best,
       (findLoop b (avoidAlphaGLES d.vendorName) FindState.init d.configs).bestContextVersion) := by
  unfold EGL_FindConfig at h ⊢
  by_cases h1 : (!d.getConfigsOk1 || d.configs.length == 0) = true
  · simp [h1] at h
  · by_cases h2 : (!d.getConfigsOk2 || d.configs.length == 0) = true
    · simp [h1, h2] at h
    · simp [h1, h2]

/-! ## The candidate loop -/

theorem attemptLoop_cons_fail (b : Build) (p : SDLPlatform) (ver : GLVersionPair)
    (rest : List GLVersionPair) (st : SDLState) (hg : st.glContext = none)
    (hf : attemptOk p st.windowCalls = false) :
    ∃ st', attemptLoop b p (ver :: rest) st = attemptLoop b p rest st' ∧
      st'.glContext = none ∧ st'.windowCalls = st.windowCalls + 1 ∧
      st'.log = st.log ++ failureCalls b p st.windowCalls ver := by
  obtain ⟨pending, window, glContext, wc, log⟩ := st
  simp only at hg hf
  subst hg
  unfold attemptOk at hf
  cases hw : p.createWindow wc
  · cases hb : b.usingGLES2 <;>
      simp only [attemptLoop, SDL_GL_SetAttribute, SetGLCoreContext, SDL_CreateWindow,
        failureCalls, requestCalls, candidateAttrs, hw, hb, if_true, if_false,
        Bool.false_eq_true, Bool.not_false, Bool.not_true, List.append_assoc,
        List.cons_append, List.nil_append] <;>
      exact ⟨_, rfl, rfl, rfl, rfl⟩
  · have hc : p.createContext wc = false := by simpa [hw] using hf
    cases hb : b.usingGLES2 <;>
      simp only [attemptLoop, SDL_GL_SetAttribute, SetGLCoreContext, SDL_CreateWindow,
        SDL_GL_CreateContext, SDL_DestroyWindow,
        failureCalls, requestCalls, candidateAttrs, hw, hc, hb, if_true, if_false,
        Bool.false_eq_true, Bool.not_false, Bool.not_true, List.append_assoc,
        List.cons_append, List.nil_append] <;>
      exact ⟨_, rfl, rfl, rfl, rfl⟩

theorem attemptLoop_cons_ok (b : Build) (p : SDLPlatform) (ver : GLVersionPair)
    (rest : List GLVersionPair) (st : SDLState)
    (hok : attemptOk p st.windowCalls = true) :
    (attemptLoop b p (ver :: rest) st).glContext = some st.windowCalls ∧
    (attemptLoop b p (ver :: rest) st).window = some st.windowCalls ∧
    (attemptLoop b p (ver :: rest) st).windowCalls = st.windowCalls + 1 ∧
    (attemptLoop b p (ver :: rest) st).log = st.log ++ successCalls b st.windowCalls ver := by
  obtain ⟨pending, window, glContext, wc, log⟩ := st
  unfold attemptOk at hok
  simp only [Bool.and_eq_true] at hok
  obtain ⟨hw, hc⟩ := hok
  cases hb : b.usingGLES2 <;>
    simp [attemptLoop, SDL_GL_SetAttribute, SetGLCoreContext, SDL_CreateWindow,
      SDL_GL_CreateContext, successCalls, requestCalls, candidateAttrs, hw, hc, hb]

/-- Every candidate fails: the loop runs through all of them. -/
theorem attemptLoop_all_fail (b : Build) (p : SDLPlatform) (vers : List GLVersionPair) :
    ∀ (st : SDLState), st.glContext = none →
      (∀ i, i < vers.length → attemptOk p (st.windowCalls + i) = false) →
      (attemptLoop b p vers st).glContext = none ∧
      (attemptLoop b p vers st).windowCalls = st.windowCalls + vers.length ∧
      (attemptLoop b p vers st).log = st.log ++ failuresCalls b p st.windowCalls vers := by
  induction vers with
  | nil =>
    intro st hg _
    simp [attemptLoop, failuresCalls, hg]
  | cons ver rest ih =>
    intro st hg hf
    obtain ⟨st1, heq, hg1, hwc1, hlog1⟩ :=
      attemptLoop_cons_fail b p ver rest st hg (by simpa using hf 0 (by simp))
    have hf1 : ∀ i, i < rest.length → attemptOk p (st1.windowCalls + i) = false := by
      intro i hi
      have := hf (i + 1) (by simp; omega)
      rw [hwc1]
      rwa [show st.windowCalls + 1 + i = st.windowCalls + (i + 1) by omega]
    obtain ⟨h1, h2, h3⟩ := ih st1 hg1 hf1
    rw [heq]
    refine ⟨h1, ?_, ?_⟩
    · rw [h2, hwc1]
      simp only [List.length_cons]
      omega
    · rw [h3, hlog1, hwc1]
      simp [failuresCalls]

/-- Candidate `k` is the first that succeeds: the loop stops there. -/
theorem attemptLoop_first_ok (b : Build) (p : SDLPlatform) (vers : List GLVersionPair) :
    ∀ (st : SDLState) (k : Nat) (ver : GLVersionPair), st.glContext = none →
      vers[k]? = some ver →
      (∀ i, i < k → attemptOk p (st.windowCalls + i) = false) →
      attemptOk p (st.windowCalls + k) = true →
      (attemptLoop b p vers st).glContext = some (st.windowCalls + k) ∧
      (attemptLoop b p vers st).window = some (st.windowCalls + k) ∧
      (attemptLoop b p vers st).log =
        st.log ++ failuresCalls b p st.windowCalls (vers.take k)
          ++ successCalls b (st.windowCalls + k) ver := by
  induction vers with
  | nil =>
    intro st k ver _ hget
    simp at hget
  | cons v rest ih =>
    intro st k ver hg hget hf hok
    cases k with
    | zero =>
      have hv : v = ver := by simpa using hget
      subst hv
      obtain ⟨h1, h2, _, h4⟩ := attemptLoop_cons_ok b p v rest st (by simpa using hok)
      refine ⟨by simpa using h1, by simpa using h2, ?_⟩
      simp [h4, failuresCalls]
    | succ k =>
      obtain ⟨st1, heq, hg1, hwc1, hlog1⟩ :=
        attemptLoop_cons_fail b p v rest st hg (by simpa using hf 0 (by omega))
      have hget1 : rest[k]? = some ver := by simpa using hget
      have hf1 : ∀ i, i < k → attemptOk p (st1.windowCalls + i) = false := by
        intro i hi
        have := hf (i + 1) (by omega)
        rw [hwc1]
        rwa [show st.windowCalls + 1 + i = st.windowCalls + (i + 1) by omega]
      have hok1 : attemptOk p (st1.windowCalls + k) = true := by
        rw [hwc1]
        rwa [show st.windowCalls + 1 + k = st.windowCalls + (k + 1) by omega]
      obtain ⟨h1, h2, h3⟩ := ih st1 k ver hg1 hget1 hf1 hok1
      rw [heq]
      have hidx : st1.windowCalls + k = st.windowCalls + (k + 1) := by omega
      refine ⟨by rw [h1, hidx], by rw [h2, hidx], ?_⟩
      rw [h3, hlog1, hwc1, ← hidx, hwc1]
      simp [failuresCalls]

/-! ## Projections of a log -/

theorem windowAttempts_append (l₁ l₂ : List Call) :
    windowAttempts (l₁ ++ l₂) = windowAttempts l₁ ++ windowAttempts l₂ := by
  simp [windowAttempts, List.filterMap_append]

theorem shownWindows_append (l₁ l₂ : List Call) :
    shownWindows (l₁ ++ l₂) = shownWindows l₁ ++ shownWindows l₂ := by
  simp [shownWindows, List.filterMap_append]

theorem windowAttempts_failureCalls (b : Build) (p : SDLPlatform) (k : Nat)
    (ver : GLVersionPair) :
    windowAttempts (failureCalls b p k ver) = [candidateAttrs b ver] := by
  cases h : p.createWindow k <;> simp [failureCalls, requestCalls, windowAttempts, h]

theorem shownWindows_failureCalls (b : Build) (p : SDLPlatform) (k : Nat)
    (ver : GLVersionPair) :
    shownWindows (failureCalls b p k ver) = [] := by
  cases h : p.createWindow k <;> simp [failureCalls, requestCalls, shownWindows, h]

theorem windowAttempts_failuresCalls (b : Build) (p : SDLPlatform) (vers : List GLVersionPair) :
    ∀ k, windowAttempts (failuresCalls b p k vers) = vers.map (candidateAttrs b) := by
  induction vers with
  | nil => intro k; rfl
  | cons v rest ih =>
    intro k
    simp [failuresCalls, windowAttempts_append, windowAttempts_failureCalls, ih]

theorem shownWindows_failuresCalls (b : Build) (p : SDLPlatform) (vers : List GLVersionPair) :
    ∀ k, shownWindows (failuresCalls b p k vers) = [] := by
  induction vers with
  | nil => intro k; rfl
  | cons v rest ih =>
    intro k
    simp [failuresCalls, shownWindows_append, shownWindows_failureCalls, ih]

theorem windowAttempts_successCalls (b : Build) (k : Nat) (ver : GLVersionPair) :
    windowAttempts (successCalls b k ver) = [candidateAttrs b ver] := by
  simp [successCalls, requestCalls, windowAttempts]

/-! ## The tail of `Init` -/

theorem EGL_Init_calls (b : Build) (d : EGLDisplay) (g : EGLGlobals) :
    windowAttempts (EGL_Init b d g).calls = [] ∧ shownWindows (EGL_Init b d g).calls = [] := by
  unfold EGL_Init
  simp only
  cases (EGL_FindConfig b d 0).1 with
  | none => simp [windowAttempts, shownWindows]
  | some c =>
    simp only
    split_ifs <;> simp [windowAttempts, shownWindows]

theorem finishInit_status (b : Build) (ndebug : Bool) (p : SDLPlatform) (d : EGLDisplay)
    (g : EGLGlobals) (st : SDLState) :
    (finishInit b ndebug p d g st).status ≠ some 2 := by
  unfold finishInit
  simp only
  split_ifs <;> simp

theorem finishInit_windowAttempts (b : Build) (ndebug : Bool) (p : SDLPlatform)
    (d : EGLDisplay) (g : EGLGlobals) (st : SDLState) :
    windowAttempts (finishInit b ndebug p d g st).log = windowAttempts st.log := by
  have he := (EGL_Init_calls b d g).1
  unfold finishInit
  simp only
  split_ifs <;> simp only [windowAttempts_append, he, List.append_nil] <;>
    simp [windowAttempts]

theorem finishInit_shownWindows (b : Build) (ndebug : Bool) (p : SDLPlatform)
    (d : EGLDisplay) (g : EGLGlobals) (st : SDLState) :
    shownWindows (finishInit b ndebug p d g st).log = shownWindows st.log ++ [st.window] := by
  have he := (EGL_Init_calls b d g).2
  unfold finishInit
  simp only
  split_ifs <;> simp only [shownWindows_append, he, List.append_nil] <;>
    simp [shownWindows]

theorem finishInit_window (b : Build) (ndebug : Bool) (p : SDLPlatform)
    (d : EGLDisplay) (g : EGLGlobals) (st : SDLState) :
    (finishInit b ndebug p d g st).window = st.window := by
  unfold finishInit
  simp only
  split_ifs <;> simp

/-! ## `Init` as a whole -/

/-- Candidate `k` is the first that succeeds: `Init` goes on with the state
the loop left at its `break`. -/
theorem Init_first_ok (b : Build) (ndebug : Bool) (p : SDLPlatform) (d : EGLDisplay)
    (g : EGLGlobals) (pending0 : GLAttrs) (k : Nat) (ver : GLVersionPair)
    (hget : (attemptVersions b)[k]? = some ver)
    (hf : ∀ i, i < k → attemptOk p i = false) (hok : attemptOk p k = true) :
    ∃ st, Init b ndebug p d g pending0 = finishInit b ndebug p d g st ∧
      st.window = some k ∧
      st.log = failuresCalls b p 0 ((attemptVersions b).take k) ++ successCalls b k ver := by
  obtain ⟨h1, h2, h3⟩ := attemptLoop_first_ok b p (attemptVersions b)
    (SDLState.entry pending0) k ver rfl hget
    (by intro i hi; simpa [SDLState.entry] using hf i hi)
    (by simpa [SDLState.entry] using hok)
  refine ⟨attemptLoop b p (attemptVersions b) (SDLState.entry pending0), ?_, ?_, ?_⟩
  · unfold Init
    simp [h1]
  · simpa [SDLState.entry] using h2
  · simpa [SDLState.entry] using h3

/-- Every candidate fails: `Init` makes the unconstrained attempt, which is
attempt number `(attemptVersions b).length`. -/
theorem Init_all_fail (b : Build) (ndebug : Bool) (p : SDLPlatform) (d : EGLDisplay)
    (g : EGLGlobals) (pending0 : GLAttrs)
    (hf : ∀ i, i < (attemptVersions b).length → attemptOk p i = false) :
    (p.createWindow (attemptVersions b).length = false →
      Init b ndebug p d g pending0 =
        { status := some 2,
          log := failuresCalls b p 0 (attemptVersions b) ++ fallbackRequestCalls
            ++ [Call.SDL_CreateWindow unconstrainedAttrs none, Call.NativeShutdown,
                Call.SDL_Quit],
          window := none, globals := g }) ∧
    (p.createWindow (attemptVersions b).length = true →
      p.createContext (attemptVersions b).length = false →
      Init b ndebug p d g pending0 =
        { status := some 2,
          log := failuresCalls b p 0 (attemptVersions b) ++ fallbackRequestCalls
            ++ [Call.SDL_CreateWindow unconstrainedAttrs (some (attemptVersions b).length),
                Call.SDL_GL_CreateContext (attemptVersions b).length none,
                Call.NativeShutdown, Call.SDL_Quit],
          window := some (attemptVersions b).length, globals := g }) ∧
    (attemptOk p (attemptVersions b).length = true →
      ∃ st, Init b ndebug p d g pending0 = finishInit b ndebug p d g st ∧
        st.window = some (attemptVersions b).length ∧
        st.log = failuresCalls b p 0 (attemptVersions b) ++ fallbackRequestCalls
          ++ [Call.SDL_CreateWindow unconstrainedAttrs (some (attemptVersions b).length),
              Call.SDL_GL_CreateContext (attemptVersions b).length
                (some (attemptVersions b).length)]) := by
  obtain ⟨h1, h2, h3⟩ := attemptLoop_all_fail b p (attemptVersions b)
    (SDLState.entry pending0) rfl
    (by intro i hi; simpa [SDLState.entry] using hf i hi)
  unfold Init
  dsimp only
  generalize attemptLoop b p (attemptVersions b) (SDLState.entry pending0) = st at h1 h2 h3 ⊢
  obtain ⟨pend, win, glc, wc, log⟩ := st
  simp only [SDLState.entry, Nat.zero_add, List.nil_append] at h1 h2 h3
  subst h1 h2 h3
  refine ⟨?_, ?_, ?_⟩
  · intro hw
    simp [SDL_GL_SetAttribute, SetGLCoreContext, SDL_CreateWindow, hw, fallbackRequestCalls,
      unconstrainedAttrs]
  · intro hw hc
    simp [SDL_GL_SetAttribute, SetGLCoreContext, SDL_CreateWindow, SDL_GL_CreateContext, hw, hc,
      fallbackRequestCalls, unconstrainedAttrs]
  · intro hok
    unfold attemptOk at hok
    simp only [Bool.and_eq_true] at hok
    obtain ⟨hw, hc⟩ := hok
    simp only [SDL_GL_SetAttribute, SetGLCoreContext, SDL_CreateWindow, SDL_GL_CreateContext,
      hw, hc, if_true]
    exact ⟨_, rfl, rfl, by simp [fallbackRequestCalls, unconstrainedAttrs]⟩

theorem windowAttempts_fallbackRequestCalls : windowAttempts fallbackRequestCalls = [] := rfl

theorem shownWindows_fallbackRequestCalls : shownWindows fallbackRequestCalls = [] := rfl

/-- No version candidate requests what the unconstrained attempt requests. -/
theorem unconstrained_not_candidate (b : Build) :
    unconstrainedAttrs ∉ (attemptVersions b).map (candidateAttrs b) := by
  cases hb : b.usingGLES2 <;>
    simp [attemptVersions, candidateAttrs, unconstrainedAttrs, hb,
      SDL_GL_CONTEXT_PROFILE_ES, SDL_GL_CONTEXT_PROFILE_CORE]

theorem unconstrained_not_in_take (b : Build) (k : Nat) :
    unconstrainedAttrs ∉ ((attemptVersions b).take k).map (candidateAttrs b) := by
  intro h
  obtain ⟨a, ha, hfa⟩ := List.mem_map.mp h
  exact unconstrained_not_candidate b (List.mem_map.mpr ⟨a, List.mem_of_mem_take ha, hfa⟩)

/-- The attempts of a run in which candidate `k` is the first to succeed. -/
theorem Init_attempts_first_ok (b : Build) (ndebug : Bool) (p : SDLPlatform) (d : EGLDisplay)
    (g : EGLGlobals) (pending0 : GLAttrs) (k : Nat) (hk : k < (attemptVersions b).length)
    (hf : ∀ i, i < k → attemptOk p i = false) (hok : attemptOk p k = true) :
    windowAttempts (Init b ndebug p d g pending0).log
        = ((attemptVersions b).take (k + 1)).map (candidateAttrs b) ∧
    (Init b ndebug p d g pending0).window = some k ∧
    (Init b ndebug p d g pending0).status ≠ some 2 ∧
    shownWindows (Init b ndebug p d g pending0).log = [some k] := by
  have hget : (attemptVersions b)[k]? = some ((attemptVersions b)[k]) :=
    List.getElem?_eq_getElem hk
  obtain ⟨st, hI, hwin, hlog⟩ :=
    Init_first_ok b ndebug p d g pending0 k _ hget hf hok
  rw [hI]
  refine ⟨?_, ?_, finishInit_status b ndebug p d g st, ?_⟩
  · rw [finishInit_windowAttempts, hlog, windowAttempts_append, windowAttempts_failuresCalls,
      windowAttempts_successCalls, List.take_succ, hget]
    simp only [Option.toList, List.map_append, List.map_cons, List.map_nil]
  · rw [finishInit_window, hwin]
  · rw [finishInit_shownWindows, hlog, shownWindows_append, shownWindows_failuresCalls, hwin]
    simp [successCalls, requestCalls, shownWindows]

/-- The attempts and the status of a run in which every candidate fails. -/
theorem Init_attempts_all_fail (b : Build) (ndebug : Bool) (p : SDLPlatform) (d : EGLDisplay)
    (g : EGLGlobals) (pending0 : GLAttrs)
    (hf : ∀ i, i < (attemptVersions b).length → attemptOk p i = false) :
    windowAttempts (Init b ndebug p d g pending0).log
        = (attemptVersions b).map (candidateAttrs b) ++ [unconstrainedAttrs] ∧
    ((Init b ndebug p d g pending0).status = some 2
        ↔ attemptOk p (attemptVersions b).length = false) ∧
    ((Init b ndebug p d g pending0).status = some 2 →
        shownWindows (Init b ndebug p d g pending0).log = []) := by
  obtain ⟨hA, hB, hC⟩ := Init_all_fail b ndebug p d g pending0 hf
  cases hw : p.createWindow (attemptVersions b).length
  · rw [hA hw]
    refine ⟨?_, ?_, ?_⟩
    · simp only [windowAttempts_append, windowAttempts_failuresCalls,
        windowAttempts_fallbackRequestCalls, List.append_nil]
      simp [windowAttempts]
    · simp [attemptOk, hw]
    · intro _
      simp only [shownWindows_append, shownWindows_failuresCalls,
        shownWindows_fallbackRequestCalls, List.append_nil]
      simp [shownWindows]
  · cases hc : p.createContext (attemptVersions b).length
    · rw [hB hw hc]
      refine ⟨?_, ?_, ?_⟩
      · simp only [windowAttempts_append, windowAttempts_failuresCalls,
          windowAttempts_fallbackRequestCalls, List.append_nil]
        simp [windowAttempts]
      · simp [attemptOk, hw, hc]
      · intro _
        simp only [shownWindows_append, shownWindows_failuresCalls,
          shownWindows_fallbackRequestCalls, List.append_nil]
        simp [shownWindows]
    · have hok : attemptOk p (attemptVersions b).length = true := by simp [attemptOk, hw, hc]
      obtain ⟨st, hI, _, hlog⟩ := hC hok
      rw [hI]
      refine ⟨?_, ?_, ?_⟩
      · rw [finishInit_windowAttempts, hlog]
        simp only [windowAttempts_append, windowAttempts_failuresCalls,
          windowAttempts_fallbackRequestCalls, List.append_nil]
        simp [windowAttempts]
      · constructor
        · intro h2
          exact absurd h2 (finishInit_status b ndebug p d g st)
        · intro h2
          rw [hok] at h2
          cases h2
      · intro h2
        exact absurd h2 (finishInit_status b ndebug p d g st)

/-- Either every candidate fails or there is a first one that succeeds. -/
theorem first_ok_or_all_fail (p : SDLPlatform) (n : Nat) :
    (∀ i, i < n → attemptOk p i = false) ∨
    (∃ k, k < n ∧ (∀ i, i < k → attemptOk p i = false) ∧ attemptOk p k = true) := by
  induction n with
  | zero =>
    left
    intro i hi
    omega
  | succ n ih =>
    rcases ih with hall | ⟨k, hk, hf, hok⟩
    · cases hn : attemptOk p n
      · left
        intro i hi
        rcases Nat.lt_succ_iff_lt_or_eq.mp hi with h | h
        · exact hall i h
        · rw [h]
          exact hn
      · right
        exact ⟨n, Nat.lt_succ_self n, hall, hn⟩
    · right
      exact ⟨k, Nat.lt_succ_of_lt hk, hf, hok⟩

/-! ## Claims on `EGL_FindConfig` -/

/-- C1: whenever `EGL_FindConfig` returns a config, that config's total score
is at least the total score of every config of the enumerated list, for every
list, vendor string and build configuration.  The total score is the `int`
value the code computes, wrap-around included. -/
theorem C1_returned_score_is_maximal (b : Build) (d : EGLDisplay) (cv : Int) (c : EGLConfig)
    (h : (EGL_FindConfig b d cv).1 = some c) :
    ∀ c' ∈ d.configs, totalScore b d.vendorName c' ≤ totalScore b d.vendorName c := by
  have hres := findConfig_some b d cv c h
  rw [hres] at h
  obtain ⟨_, _, hmax, hbest⟩ := findLoop_spec b (avoidAlphaGLES d.vendorName) d.configs
  intro c' hc'
  rcases hbest with h0 | ⟨i, c0, _, hb, _, hsc, _, _, _⟩
  · rw [h0.1] at h
    cases h
  · have hc : c0 = c := by
      rw [hb] at h
      exact Option.some.inj h
    subst hc
    unfold totalScore
    rw [← hsc]
    exact hmax c' hc'

/-- C1 at a two-config list on an ES build: the RGBA8888 config is returned
and no config scores higher. -/
theorem C1_returned_score_is_maximal_witness :
    (EGL_FindConfig esBuild (displayOf [rgb565, rgba8888] none) 0).1 = some rgba8888 ∧
    ∀ c' ∈ (displayOf [rgb565, rgba8888] none).configs,
      totalScore esBuild (displayOf [rgb565, rgba8888] none).vendorName c'
        ≤ totalScore esBuild (displayOf [rgb565, rgba8888] none).vendorName rgba8888 :=
  ⟨by decide,
   C1_returned_score_is_maximal esBuild (displayOf [rgb565, rgba8888] none) 0 rgba8888
     (by decide)⟩

/-- C2 as stated fails: a one-element list whose only config has
non-negative attributes and total score 0 makes `EGL_FindConfig` return
null, because a config is taken only when `score > bestScore` and
`bestScore` starts at 0. -/
theorem C2_counterexample :
    ¬ ∀ (b : Build) (d : EGLDisplay) (cv : Int),
        d.getConfigsOk1 = true → d.getConfigsOk2 = true → d.configs ≠ [] →
        (∀ c ∈ d.configs, ∀ a : EGLAttr, 0 ≤ readConfig c a) →
        ∃ c ∈ d.configs, (EGL_FindConfig b d cv).1 = some c := by
  intro hall
  have hnonneg : ∀ c ∈ (displayOf [zeroScoreConfig] none).configs,
      ∀ a : EGLAttr, 0 ≤ readConfig c a := by
    intro c hc a
    have hc' : c = zeroScoreConfig := by simpa [displayOf] using hc
    subst hc'
    cases a <;> decide
  obtain ⟨c, _, hc⟩ :=
    hall desktopBuild (displayOf [zeroScoreConfig] none) 0 rfl rfl (by decide) hnonneg
  have hnone : (EGL_FindConfig desktopBuild (displayOf [zeroScoreConfig] none) 0).1 = none := by
    decide
  rw [hnone] at hc
  cases hc

/-- C2, amended: when enumeration succeeds and at least one enumerated config
has a strictly positive total score (the `int` value the code computes),
`EGL_FindConfig` returns a config (not null) and that config is an element of
the enumerated list. -/
theorem C2_returns_enumerated_config (b : Build) (d : EGLDisplay) (cv : Int)
    (h1 : d.getConfigsOk1 = true) (h2 : d.getConfigsOk2 = true)
    (hpos : ∃ c ∈ d.configs, 0 < totalScore b d.vendorName c) :
    ∃ c ∈ d.configs, (EGL_FindConfig b d cv).1 = some c := by
  obtain ⟨cp, hcp, hcpos⟩ := hpos
  have hne : d.configs ≠ [] := List.ne_nil_of_mem hcp
  have hlen : (d.configs.length == 0) = false := by
    simpa using hne
  have hres : (EGL_FindConfig b d cv).1 =
      (findLoop b (avoidAlphaGLES d.vendorName) FindState.init d.configs).best := by
    unfold EGL_FindConfig
    simp [h1, h2, hlen]
  obtain ⟨_, _, hmax, hbest⟩ := findLoop_spec b (avoidAlphaGLES d.vendorName) d.configs
  rcases hbest with h0 | ⟨i, c0, hget, hb, _, _, _, _, _⟩
  · have := hmax cp hcp
    rw [h0.2.1] at this
    unfold totalScore at hcpos
    omega
  · exact ⟨c0, List.getElem?_mem hget, by rw [hres, hb]⟩

/-- C2 (amended) at a two-config list on a desktop build. -/
theorem C2_returns_enumerated_config_witness :
    ∃ c ∈ (displayOf [zeroScoreConfig, rgb565] none).configs,
      (EGL_FindConfig desktopBuild (displayOf [zeroScoreConfig, rgb565] none) 0).1 = some c :=
  C2_returns_enumerated_config desktopBuild (displayOf [zeroScoreConfig, rgb565] none) 0
    rfl rfl ⟨rgb565, by decide, by decide⟩

/-- C3: the total score of a config is the weighted sum
`10*color + 2*alpha + 5*depth + stencil + level + samples + sampleBuffer +
transparent + caveat + renderableES + renderableDesktop + surface`, with depth
and stencil the raw attribute values, level / samples / sampleBuffer 100 when
the attribute is 0 and 0 otherwise, transparent 50 for `EGL_NONE`, caveat 100
for `EGL_NONE`, 50 for `EGL_NON_CONFORMANT_CONFIG` and 0 otherwise, surface
100 when the surface type has the window bit (bit 2) and 0 otherwise; on a
framebuffer-device build the surface term is 0.  The sum is formed in `int`:
for every config the total is the weighted sum reduced to the 32-bit range,
and it is the weighted sum itself whenever that lies in the `int` range. -/
theorem C3_total_score_formula (b : Build) (vendorName : Option String) (n : Nat)
    (c : EGLConfig) :
    (scoreColumn b (avoidAlphaGLES vendorName) n c).DEPTHSCORE = c.depthSize ∧
    (scoreColumn b (avoidAlphaGLES vendorName) n c).STENCILSCORE = c.stencilSize ∧
    (scoreColumn b (avoidAlphaGLES vendorName) n c).LEVELSCORE
      = (if c.level = 0 then 100 else 0) ∧
    (scoreColumn b (avoidAlphaGLES vendorName) n c).SAMPLESSCORE
      = (if c.samples = 0 then 100 else 0) ∧
    (scoreColumn b (avoidAlphaGLES vendorName) n c).SAMPLEBUFFERSCORE
      = (if c.sampleBuffers = 0 then 100 else 0) ∧
    (scoreColumn b (avoidAlphaGLES vendorName) n c).TRANSPARENTSCORE
      = (if c.transparentType = EGL_NONE then 50 else 0) ∧
    (scoreColumn b (avoidAlphaGLES vendorName) n c).CAVEATSCORE
      = (if c.configCaveat = EGL_NONE then 100
         else if c.configCaveat = EGL_NON_CONFORMANT_CONFIG then 50 else 0) ∧
    totalScore b vendorName c = (scoreColumn b (avoidAlphaGLES vendorName) n c).TOTALSCORE ∧
    (scoreColumn b (avoidAlphaGLES vendorName) n c).TOTALSCORE
      = toInt32 (specTotal (scoreColumn b (avoidAlphaGLES vendorName) n c)
          (if b.usingFBDEV then 0 else if Int.testBit c.surfaceType 2 then 100 else 0)) ∧
    (-2147483648 ≤ specTotal (scoreColumn b (avoidAlphaGLES vendorName) n c)
          (if b.usingFBDEV then 0 else if Int.testBit c.surfaceType 2 then 100 else 0) →
      specTotal (scoreColumn b (avoidAlphaGLES vendorName) n c)
          (if b.usingFBDEV then 0 else if Int.testBit c.surfaceType 2 then 100 else 0)
        ≤ 2147483647 →
      (scoreColumn b (avoidAlphaGLES vendorName) n c).TOTALSCORE
        = specTotal (scoreColumn b (avoidAlphaGLES vendorName) n c)
            (if b.usingFBDEV then 0 else if Int.testBit c.surfaceType 2 then 100 else 0)) := by
  have hsurf : (scoreColumn b (avoidAlphaGLES vendorName) n c).SURFACESCORE
      = (if b.usingFBDEV then 0 else if Int.testBit c.surfaceType 2 then 100 else 0) := by
    have hw := window_bit c.surfaceType
    simp only [scoreColumn, readConfig]
    cases hfb : b.usingFBDEV
    · by_cases hbit : Int.testBit c.surfaceType 2 = true
      · have hl := hw.mpr hbit
        simp only [hbit, if_pos hl, if_true, Bool.false_eq_true, if_false]
      · have hl : ¬ (Int.land c.surfaceType EGL_WINDOW_BIT ≠ 0) := fun h => hbit (hw.mp h)
        simp only [hbit, if_neg hl, Bool.false_eq_true, if_false]
    · simp only [if_true]
  have htot := scoreColumn_total_spec b (avoidAlphaGLES vendorName) n c
  rw [hsurf] at htot
  refine ⟨rfl, rfl, rfl, rfl, rfl, rfl, rfl, rfl, htot, ?_⟩
  intro h1 h2
  rw [htot]
  exact toInt32_of_range _ h1 h2

/-- C3 at the RGBA8888 config on the ES build, where the weighted sum (894)
is within the `int` range: the total is the weighted sum. -/
theorem C3_total_score_formula_witness :
    (scoreColumn esBuild (avoidAlphaGLES none) 0 rgba8888).TOTALSCORE
      = specTotal (scoreColumn esBuild (avoidAlphaGLES none) 0 rgba8888)
          (if esBuild.usingFBDEV then 0
           else if Int.testBit rgba8888.surfaceType 2 then 100 else 0) :=
  (C3_total_score_formula esBuild none 0 rgba8888).2.2.2.2.2.2.2.2.2 (by decide) (by decide)

/-- C4 as stated fails: in the list `[zeroScoreConfig, zeroScoreConfig]` both
configs share the greatest total score (0), the first of them is at the
smallest index with that score, and yet `EGL_FindConfig` returns null
instead of it. -/
theorem C4_counterexample :
    ¬ ∀ (b : Build) (d : EGLDisplay) (cv : Int) (i j : Nat) (ci cj : EGLConfig),
        d.getConfigsOk1 = true → d.getConfigsOk2 = true →
        d.configs[i]? = some ci → d.configs[j]? = some cj → i < j →
        totalScore b d.vendorName cj = totalScore b d.vendorName ci →
        (∀ c ∈ d.configs, totalScore b d.vendorName c ≤ totalScore b d.vendorName ci) →
        (∀ (k : Nat) (c : EGLConfig), k < i → d.configs[k]? = some c →
          totalScore b d.vendorName c < totalScore b d.vendorName ci) →
        (EGL_FindConfig b d cv).1 = some ci ∧ chosenConfigNum b d = (i : Int) + 1 := by
  intro hall
  have hmax : ∀ c ∈ (displayOf [zeroScoreConfig, zeroScoreConfig] none).configs,
      totalScore desktopBuild (displayOf [zeroScoreConfig, zeroScoreConfig] none).vendorName c
        ≤ totalScore desktopBuild
            (displayOf [zeroScoreConfig, zeroScoreConfig] none).vendorName zeroScoreConfig := by
    intro c hc
    have hc' : c = zeroScoreConfig := by simpa [displayOf] using hc
    rw [hc']
  have h := hall desktopBuild (displayOf [zeroScoreConfig, zeroScoreConfig] none) 0 0 1
    zeroScoreConfig zeroScoreConfig rfl rfl rfl rfl (by decide) rfl hmax
    (fun k _ hk _ => absurd hk (Nat.not_lt_zero k))
  have hnone : (EGL_FindConfig desktopBuild
      (displayOf [zeroScoreConfig, zeroScoreConfig] none) 0).1 = none := by decide
  rw [hnone] at h
  cases h.1

/-- C4, amended: when the greatest total score of the enumerated list (the
`int` value the code computes) is strictly positive, `EGL_FindConfig` returns
the config at the smallest index whose score equals that maximum (so among
configs sharing the greatest score the first in enumeration order), and the
config number it reports is that index plus one. -/
theorem C4_first_maximum_wins (b : Build) (d : EGLDisplay) (cv : Int) (i : Nat)
    (ci : EGLConfig)
    (h1 : d.getConfigsOk1 = true) (h2 : d.getConfigsOk2 = true)
    (hi : d.configs[i]? = some ci)
    (hmax : ∀ c ∈ d.configs, totalScore b d.vendorName c ≤ totalScore b d.vendorName ci)
    (hfirst : ∀ (k : Nat) (c : EGLConfig), k < i → d.configs[k]? = some c →
      totalScore b d.vendorName c < totalScore b d.vendorName ci)
    (hpos : 0 < totalScore b d.vendorName ci) :
    (EGL_FindConfig b d cv).1 = some ci ∧ chosenConfigNum b d = (i : Int) + 1 := by
  have hmem : ci ∈ d.configs := List.getElem?_mem hi
  have hlen : (d.configs.length == 0) = false := by
    simpa using List.ne_nil_of_mem hmem
  have hres : (EGL_FindConfig b d cv).1 =
      (findLoop b (avoidAlphaGLES d.vendorName) FindState.init d.configs).best := by
    unfold EGL_FindConfig
    simp [h1, h2, hlen]
  obtain ⟨_, _, hmax0, hbest⟩ := findLoop_spec b (avoidAlphaGLES d.vendorName) d.configs
  unfold totalScore at hmax hfirst hpos
  rcases hbest with h0 | ⟨i0, c0, hget, hb, hnum, hsc, _, _, hfirst0⟩
  · have := hmax0 ci hmem
    rw [h0.2.1] at this
    omega
  · have hc0 : c0 ∈ d.configs := List.getElem?_mem hget
    have hii : i0 = i := by
      rcases Nat.lt_trichotomy i0 i with hlt | heq | hgt
      · have := hfirst i0 c0 hlt hget
        have := hmax0 ci hmem
        omega
      · exact heq
      · have := hfirst0 i ci hgt hi
        have := hmax c0 hc0
        omega
    subst hii
    have hcc : c0 = ci := by
      rw [hget] at hi
      exact Option.some.inj hi
    subst hcc
    exact ⟨by rw [hres, hb], by unfold chosenConfigNum; rw [hnum]⟩

/-- C4 (amended) at a list whose two last configs tie for the greatest
score: the earlier of the two (index 1, config number 2) is returned. -/
theorem C4_first_maximum_wins_witness :
    (EGL_FindConfig esBuild (displayOf [rgb565, rgba8888, rgba8888] none) 0).1 = some rgba8888 ∧
    chosenConfigNum esBuild (displayOf [rgb565, rgba8888, rgba8888] none) = ((1 : Nat) : Int) + 1 :=
  C4_first_maximum_wins esBuild (displayOf [rgb565, rgba8888, rgba8888] none) 0 1 rgba8888
    rfl rfl rfl (by decide)
    (fun k c hk hget => by
      have hk0 : k = 0 := by omega
      subst hk0
      have hc : rgb565 = c := by simpa [displayOf] using hget
      subst hc
      decide)
    (by decide)

/-- C8: the alpha sub-score that enters the total is `8 - capped(A,8)` when
the vendor string is exactly "ARM" and the config's ES renderable score is
greater than 0, and `capped(A,8)` in every other case; so with vendor "ARM",
alpha size 8 and a positive ES renderable score it is 0. -/
theorem C8_alpha_inversion (b : Build) (vendorName : Option String) (n : Nat)
    (c : EGLConfig) :
    (scoreColumn b (avoidAlphaGLES vendorName) n c).ALPHASCORE
      = (if vendorName = some "ARM"
            ∧ 0 < (scoreColumn b (avoidAlphaGLES vendorName) n c).RENDERABLESCOREGLES
         then 8 - (if c.alphaSize > 8 then 1 else c.alphaSize)
         else (if c.alphaSize > 8 then 1 else c.alphaSize)) ∧
    (vendorName = some "ARM" → c.alphaSize = 8 →
      0 < (scoreColumn b (avoidAlphaGLES vendorName) n c).RENDERABLESCOREGLES →
      (scoreColumn b (avoidAlphaGLES vendorName) n c).ALPHASCORE = 0) := by
  have hform : (scoreColumn b (avoidAlphaGLES vendorName) n c).ALPHASCORE
      = (if vendorName = some "ARM"
            ∧ 0 < (scoreColumn b (avoidAlphaGLES vendorName) n c).RENDERABLESCOREGLES
         then 8 - (if c.alphaSize > 8 then 1 else c.alphaSize)
         else (if c.alphaSize > 8 then 1 else c.alphaSize)) := by
    simp only [scoreColumn, readConfigMax, readConfig]
    by_cases hv : vendorName = some "ARM"
    · subst hv
      have ha : avoidAlphaGLES (some "ARM") = true := rfl
      simp [ha]
    · have ha : avoidAlphaGLES vendorName = false := by
        cases hvn : vendorName with
        | none => rfl
        | some s =>
          have hs : s ≠ "ARM" := by
            intro hs
            exact hv (by rw [hvn, hs])
          simp [avoidAlphaGLES, hs]
      simp [hv, ha]
  refine ⟨hform, ?_⟩
  intro hv h8 hpos
  rw [hform, if_pos ⟨hv, hpos⟩, h8]
  decide

/-- C8 at vendor "ARM", alpha size 8, an ES3-renderable config on an ES
build: the alpha score is 0. -/
theorem C8_alpha_inversion_witness :
    (scoreColumn esBuild (avoidAlphaGLES (some "ARM")) 0 rgba8888).ALPHASCORE = 0 :=
  (C8_alpha_inversion esBuild (some "ARM") 0 rgba8888).2 rfl rfl (by decide)

/-- C9: `readConfigMax(attr, 8)` returns the attribute value `v` when
`0 ≤ v ≤ 8` and 1 when `v > 8`; the colour score is the sum of the capped
red, green and blue sizes and lies between 0 and 24 when the three sizes are
non-negative. -/
theorem C9_readConfigMax_cap (b : Build) (a : Bool) (n : Nat) (c : EGLConfig)
    (attr : EGLAttr) :
    (0 ≤ readConfig c attr → readConfig c attr ≤ 8 →
      readConfigMax c attr 8 = readConfig c attr) ∧
    (8 < readConfig c attr → readConfigMax c attr 8 = 1) ∧
    (scoreColumn b a n c).COLORSCORE
      = readConfigMax c .EGL_RED_SIZE 8 + readConfigMax c .EGL_GREEN_SIZE 8
        + readConfigMax c .EGL_BLUE_SIZE 8 ∧
    (0 ≤ c.redSize → 0 ≤ c.greenSize → 0 ≤ c.blueSize →
      0 ≤ (scoreColumn b a n c).COLORSCORE ∧ (scoreColumn b a n c).COLORSCORE ≤ 24) := by
  refine ⟨?_, ?_, ?_, ?_⟩
  · intro _ h8
    unfold readConfigMax
    simp only [gt_iff_lt, if_neg (not_lt.mpr h8)]
  · intro h8
    unfold readConfigMax
    simp only [gt_iff_lt, if_pos h8]
  · simp only [scoreColumn]
    ring
  · intro hr hg hb
    simp only [scoreColumn, readConfigMax, readConfig]
    constructor <;> split_ifs <;> omega

/-- C9 at the boundary values: 8 gives 8, 9 gives 1, 0 gives 0, and the
colour score of that config is within 0..24. -/
theorem C9_readConfigMax_cap_witness :
    readConfigMax rgb890 .EGL_RED_SIZE 8 = 8 ∧
    readConfigMax rgb890 .EGL_GREEN_SIZE 8 = 1 ∧
    readConfigMax rgb890 .EGL_BLUE_SIZE 8 = 0 ∧
    0 ≤ (scoreColumn esBuild false 0 rgb890).COLORSCORE ∧
    (scoreColumn esBuild false 0 rgb890).COLORSCORE ≤ 24 :=
  ⟨(C9_readConfigMax_cap esBuild false 0 rgb890 .EGL_RED_SIZE).1 (by decide) (by decide),
   (C9_readConfigMax_cap esBuild false 0 rgb890 .EGL_GREEN_SIZE).2.1 (by decide),
   (C9_readConfigMax_cap esBuild false 0 rgb890 .EGL_BLUE_SIZE).1 (by decide) (by decide),
   (C9_readConfigMax_cap esBuild false 0 rgb890 .EGL_RED_SIZE).2.2.2
     (by decide) (by decide) (by decide)⟩

/-- C10: when `EGL_FindConfig` selects a config, the context version it
writes out is 3 if the selected config's renderable mask has the ES3 bit
(bit 6), otherwise 2 if it has the ES2 bit (bit 2), otherwise 0; the config
it is computed from is the returned one, the config at the chosen position
of the list. -/
theorem C10_context_version (b : Build) (d : EGLDisplay) (cv : Int) (c : EGLConfig)
    (v : Int) (h : EGL_FindConfig b d cv = (some c, v)) :
    v = (if Int.testBit c.renderableType 6 then 3
         else if Int.testBit c.renderableType 2 then 2 else 0) ∧
    ∃ i : Nat, d.configs[i]? = some c ∧ chosenConfigNum b d = (i : Int) + 1 := by
  have h1 : (EGL_FindConfig b d cv).1 = some c := by rw [h]
  have hres := findConfig_some b d cv c h1
  rw [hres] at h
  obtain ⟨_, _, _, hbest⟩ := findLoop_spec b (avoidAlphaGLES d.vendorName) d.configs
  have hb1 := congrArg Prod.fst h
  have hb2 := congrArg Prod.snd h
  simp only at hb1 hb2
  rcases hbest with h0 | ⟨i, c0, hget, hb, hnum, _, _, hver, _⟩
  · rw [h0.1] at hb1
    cases hb1
  · have hc : c0 = c := by
      rw [hb] at hb1
      exact Option.some.inj hb1
    subst hc
    refine ⟨?_, i, hget, by unfold chosenConfigNum; rw [hnum]⟩
    rw [← hb2, hver]
    simp only [contextVersionOf, readConfig, es3_bit, es2_bit]

/-- C10 at a list where the ES2-only config comes first and an ES3 config is
selected: the version written is 3. -/
theorem C10_context_version_witness :
    (3 : Int) = (if Int.testBit rgba8888.renderableType 6 then 3
         else if Int.testBit rgba8888.renderableType 2 then 2 else 0) ∧
    ∃ i : Nat, (displayOf [rgb565, rgba8888] none).configs[i]? = some rgba8888 ∧
      chosenConfigNum esBuild (displayOf [rgb565, rgba8888] none) = (i : Int) + 1 :=
  C10_context_version esBuild (displayOf [rgb565, rgba8888] none) 0 rgba8888 3 (by decide)

/-! ## Claims on `SDLGLGraphicsContext::Init` -/

/-- C5: for every outcome of the window-creation and context-creation calls,
the attempts `Init` makes are the first `m` entries, for some `m`, of the
candidates in list order followed by the unconstrained attempt; and when candidate `k` is the first
whose window creation and context creation both succeed, the attempts are
exactly candidates `0..k` in order: no later candidate and no unconstrained
attempt is made, and the window of candidate `k` is the one kept. -/
theorem C5_first_success_stops (b : Build) (ndebug : Bool) (p : SDLPlatform)
    (d : EGLDisplay) (g : EGLGlobals) (pending0 : GLAttrs) :
    (∃ m, windowAttempts (Init b ndebug p d g pending0).log
      = ((attemptVersions b).map (candidateAttrs b) ++ [unconstrainedAttrs]).take m) ∧
    ∀ k, k < (attemptVersions b).length → (∀ i, i < k → attemptOk p i = false) →
      attemptOk p k = true →
      windowAttempts (Init b ndebug p d g pending0).log
        = ((attemptVersions b).take (k + 1)).map (candidateAttrs b) ∧
      unconstrainedAttrs ∉ windowAttempts (Init b ndebug p d g pending0).log ∧
      (Init b ndebug p d g pending0).window = some k := by
  constructor
  · rcases first_ok_or_all_fail p (attemptVersions b).length with hall | ⟨k, hk, hf, hok⟩
    · refine ⟨(attemptVersions b).length + 1, ?_⟩
      rw [(Init_attempts_all_fail b ndebug p d g pending0 hall).1]
      exact (List.take_of_length_le (by simp)).symm
    · refine ⟨k + 1, ?_⟩
      rw [(Init_attempts_first_ok b ndebug p d g pending0 k hk hf hok).1,
        List.take_append_of_le_length (by simp; omega), List.map_take]
  · intro k hk hf hok
    obtain ⟨h1, h2, _, _⟩ := Init_attempts_first_ok b ndebug p d g pending0 k hk hf hok
    refine ⟨h1, ?_, h2⟩
    rw [h1]
    exact unconstrained_not_in_take b (k + 1)

/-- C5 on an ES build (candidates 3.2, 3.1, 3.0, 2.0) where 3.2 fails and 3.1
succeeds: exactly 3.2 and 3.1 are attempted; 3.0, 2.0 and the unconstrained
attempt are not. -/
theorem C5_first_success_stops_witness :
    windowAttempts (Init esBuild true secondAttemptOk (displayOf [rgba8888] none)
        EGLGlobals.null unconstrainedAttrs).log
      = [{ profileMask := 4, major := 3, minor := 2 },
         { profileMask := 4, major := 3, minor := 1 }] ∧
    unconstrainedAttrs ∉ windowAttempts (Init esBuild true secondAttemptOk
        (displayOf [rgba8888] none) EGLGlobals.null unconstrainedAttrs).log ∧
    (Init esBuild true secondAttemptOk (displayOf [rgba8888] none)
        EGLGlobals.null unconstrainedAttrs).window = some 1 :=
  (C5_first_success_stops esBuild true secondAttemptOk (displayOf [rgba8888] none)
      EGLGlobals.null unconstrainedAttrs).2 1 (by decide)
    (fun i hi => by
      have h0 : i = 0 := by omega
      subst h0
      rfl)
    rfl

/-- C6: when every version candidate fails, `Init` makes, after the
candidates, exactly one further attempt, with profile mask, major and minor
version all 0; when some candidate succeeds, no attempt with these cleared
attributes is made. -/
theorem C6_single_unconstrained_fallback (b : Build) (ndebug : Bool) (p : SDLPlatform)
    (d : EGLDisplay) (g : EGLGlobals) (pending0 : GLAttrs) :
    ((∀ i, i < (attemptVersions b).length → attemptOk p i = false) →
      windowAttempts (Init b ndebug p d g pending0).log
        = (attemptVersions b).map (candidateAttrs b)
          ++ [{ profileMask := 0, major := 0, minor := 0 }] ∧
      (windowAttempts (Init b ndebug p d g pending0).log).count
        { profileMask := 0, major := 0, minor := 0 } = 1) ∧
    ((∃ i, i < (attemptVersions b).length ∧ attemptOk p i = true) →
      ({ profileMask := 0, major := 0, minor := 0 } : GLAttrs)
        ∉ windowAttempts (Init b ndebug p d g pending0).log) := by
  constructor
  · intro hall
    have h1 := (Init_attempts_all_fail b ndebug p d g pending0 hall).1
    refine ⟨h1, ?_⟩
    have hz : List.count ({ profileMask := 0, major := 0, minor := 0 } : GLAttrs)
        ((attemptVersions b).map (candidateAttrs b)) = 0 :=
      List.count_eq_zero_of_not_mem (unconstrained_not_candidate b)
    rw [h1, List.count_append, hz]
    rfl
  · rintro ⟨i, hi, hok⟩
    rcases first_ok_or_all_fail p (attemptVersions b).length with hall | ⟨k, hk, hf, hok'⟩
    · rw [hall i hi] at hok
      cases hok
    · rw [(Init_attempts_first_ok b ndebug p d g pending0 k hk hf hok').1]
      exact unconstrained_not_in_take b (k + 1)

/-- C6 on an ES build where no context can be created: the four candidates
are attempted, then the cleared attributes once. -/
theorem C6_single_unconstrained_fallback_witness :
    (windowAttempts (Init esBuild true noContext (displayOf [rgba8888] none)
        EGLGlobals.null unconstrainedAttrs).log
      = (attemptVersions esBuild).map (candidateAttrs esBuild)
        ++ [{ profileMask := 0, major := 0, minor := 0 }] ∧
     (windowAttempts (Init esBuild true noContext (displayOf [rgba8888] none)
        EGLGlobals.null unconstrainedAttrs).log).count
        { profileMask := 0, major := 0, minor := 0 } = 1) ∧
    ({ profileMask := 0, major := 0, minor := 0 } : GLAttrs)
      ∉ windowAttempts (Init esBuild true secondAttemptOk (displayOf [rgba8888] none)
          EGLGlobals.null unconstrainedAttrs).log :=
  ⟨(C6_single_unconstrained_fallback esBuild true noContext (displayOf [rgba8888] none)
      EGLGlobals.null unconstrainedAttrs).1 (fun _ _ => rfl),
   (C6_single_unconstrained_fallback esBuild true secondAttemptOk (displayOf [rgba8888] none)
      EGLGlobals.null unconstrainedAttrs).2 ⟨1, by decide, rfl⟩⟩

/-- C7: `Init` returns status 2 exactly when every version candidate fails
and the unconstrained attempt (attempt number `attemptVersions.length`) fails
too, at window or at context creation; when it returns 2 no window was shown;
and after a candidate that was attempted and failed a further attempt is
always made, so one candidate's failure alone never makes `Init` return. -/
theorem C7_failure_iff_exhaustion (b : Build) (ndebug : Bool) (p : SDLPlatform)
    (d : EGLDisplay) (g : EGLGlobals) (pending0 : GLAttrs) :
    ((Init b ndebug p d g pending0).status = some 2 ↔
      (∀ i, i < (attemptVersions b).length → attemptOk p i = false) ∧
      (p.createWindow (attemptVersions b).length = false ∨
        p.createContext (attemptVersions b).length = false)) ∧
    ((Init b ndebug p d g pending0).status = some 2 →
      shownWindows (Init b ndebug p d g pending0).log = []) ∧
    (∀ i, i < (attemptVersions b).length → (∀ j, j ≤ i → attemptOk p j = false) →
      i + 1 < (windowAttempts (Init b ndebug p d g pending0).log).length) := by
  have hfb : attemptOk p (attemptVersions b).length = false ↔
      (p.createWindow (attemptVersions b).length = false ∨
        p.createContext (attemptVersions b).length = false) := by
    unfold attemptOk
    cases p.createWindow (attemptVersions b).length <;>
      cases p.createContext (attemptVersions b).length <;> simp
  rcases first_ok_or_all_fail p (attemptVersions b).length with hall | ⟨k, hk, hf, hok⟩
  · obtain ⟨h1, h2, h3⟩ := Init_attempts_all_fail b ndebug p d g pending0 hall
    refine ⟨?_, h3, ?_⟩
    · rw [h2, hfb]
      exact ⟨fun h => ⟨hall, h⟩, fun h => h.2⟩
    · intro i hi _
      rw [h1]
      simp only [List.length_append, List.length_map, List.length_singleton]
      omega
  · obtain ⟨h1, _, h3, _⟩ := Init_attempts_first_ok b ndebug p d g pending0 k hk hf hok
    refine ⟨?_, fun h => absurd h h3, ?_⟩
    · constructor
      · intro h
        exact absurd h h3
      · rintro ⟨hall, _⟩
        rw [hall k hk] at hok
        cases hok
    · intro i hi hfail
      have hik : i < k := by
        by_contra hge
        have := hfail k (not_lt.mp hge)
        rw [this] at hok
        cases hok
      rw [h1]
      simp only [List.length_map, List.length_take]
      omega

/-- C7 on an ES build where no context can be created: `Init` returns 2 and
shows no window; and although candidate 3.2 fails on the other platform, a
second attempt is made there. -/
theorem C7_failure_iff_exhaustion_witness :
    (Init esBuild true noContext (displayOf [rgba8888] none)
        EGLGlobals.null unconstrainedAttrs).status = some 2 ∧
    shownWindows (Init esBuild true noContext (displayOf [rgba8888] none)
        EGLGlobals.null unconstrainedAttrs).log = [] ∧
    0 + 1 < (windowAttempts (Init esBuild true secondAttemptOk (displayOf [rgba8888] none)
        EGLGlobals.null unconstrainedAttrs).log).length :=
  ⟨(C7_failure_iff_exhaustion esBuild true noContext (displayOf [rgba8888] none)
      EGLGlobals.null unconstrainedAttrs).1.mpr ⟨fun _ _ => rfl, Or.inr rfl⟩,
   (C7_failure_iff_exhaustion esBuild true noContext (displayOf [rgba8888] none)
      EGLGlobals.null unconstrainedAttrs).2.1 (by decide),
   (C7_failure_iff_exhaustion esBuild true secondAttemptOk (displayOf [rgba8888] none)
      EGLGlobals.null unconstrainedAttrs).2.2 0 (by decide)
      (fun j hj => by
        have h0 : j = 0 := by omega
        subst h0
        rfl)⟩

/-! ## Further claims on `EGL_FindConfig` and `EGL_Init` -/

/-- C11: when config enumeration fails (either `eglGetConfigs` call does not
return `EGL_TRUE`) or reports zero configs, `EGL_FindConfig` returns null and
leaves the context-version output as it was, and `EGL_Init` returns 1 without
any call (no context and no surface is created) and without touching the
statics. -/
theorem C11_enumeration_failure (b : Build) (d : EGLDisplay) (g : EGLGlobals) (cv : Int)
    (h : d.getConfigsOk1 = false ∨ d.getConfigsOk2 = false ∨ d.configs = []) :
    EGL_FindConfig b d cv = (none, cv) ∧
    (EGL_Init b d g).status = 1 ∧
    (EGL_Init b d g).calls = [] ∧
    (EGL_Init b d g).globals = g := by
  have hfind : ∀ v : Int, EGL_FindConfig b d v = (none, v) := by
    intro v
    unfold EGL_FindConfig
    rcases h with h | h | h
    · simp [h]
    · simp [h]
    · simp [h]
  refine ⟨hfind cv, ?_⟩
  unfold EGL_Init
  simp [hfind 0]

/-- C11 at a display whose first `eglGetConfigs` call fails although a config
exists. -/
theorem C11_enumeration_failure_witness :
    EGL_FindConfig esBuild { displayOf [rgba8888] none with getConfigsOk1 := false } 7
      = (none, 7) ∧
    (EGL_Init esBuild { displayOf [rgba8888] none with getConfigsOk1 := false }
      EGLGlobals.null).status = 1 ∧
    (EGL_Init esBuild { displayOf [rgba8888] none with getConfigsOk1 := false }
      EGLGlobals.null).calls = [] ∧
    (EGL_Init esBuild { displayOf [rgba8888] none with getConfigsOk1 := false }
      EGLGlobals.null).globals = EGLGlobals.null :=
  C11_enumeration_failure esBuild { displayOf [rgba8888] none with getConfigsOk1 := false }
    EGLGlobals.null 7 (Or.inl rfl)

/-- C12: on a desktop, windowed build, for the list `[c1, c2]` with
`c1` = depth 24, stencil 8, samples 0 and `c2` = depth 16, stencil 0,
samples 4, both with caveat `EGL_NONE`, surface type `EGL_WINDOW_BIT`,
renderable type `EGL_OPENGL_BIT` and the same remaining attributes (colour
and alpha sizes non-negative), `EGL_FindConfig` returns `c1`. -/
theorem C12_scenario_first_wins (b : Build) (vendorName : Option String) (other : EGLConfig)
    (cv : Int) (hes : b.usingGLES2 = false) (hfb : b.usingFBDEV = false)
    (hr : 0 ≤ other.redSize) (hg : 0 ≤ other.greenSize) (hb : 0 ≤ other.blueSize)
    (ha : 0 ≤ other.alphaSize) :
    (EGL_FindConfig b
      (displayOf [scenarioConfig other 24 8 0, scenarioConfig other 16 0 4] vendorName) cv).1
      = some (scenarioConfig other 24 8 0) := by
  have hwin : Int.land EGL_WINDOW_BIT EGL_WINDOW_BIT ≠ 0 := by decide
  have hgl : (Int.land EGL_OPENGL_BIT EGL_OPENGL_BIT != 0) = true := by decide
  have hw1 : 428 ≤ specTotal
        (scoreColumn b (avoidAlphaGLES vendorName) 0 (scenarioConfig other 24 8 0))
        (scoreColumn b (avoidAlphaGLES vendorName) 0 (scenarioConfig other 24 8 0)).SURFACESCORE
      ∧ specTotal
        (scoreColumn b (avoidAlphaGLES vendorName) 0 (scenarioConfig other 24 8 0))
        (scoreColumn b (avoidAlphaGLES vendorName) 0 (scenarioConfig other 24 8 0)).SURFACESCORE
        ≤ 1034 := by
    simp only [specTotal, scoreColumn, readConfigMax, readConfig, scenarioConfig, hes, hfb, hwin,
      hgl]
    simp
    constructor <;> split_ifs <;> omega
  have hw2 : specTotal
        (scoreColumn b (avoidAlphaGLES vendorName) 1 (scenarioConfig other 16 0 4))
        (scoreColumn b (avoidAlphaGLES vendorName) 1 (scenarioConfig other 16 0 4)).SURFACESCORE
      = specTotal
        (scoreColumn b (avoidAlphaGLES vendorName) 0 (scenarioConfig other 24 8 0))
        (scoreColumn b (avoidAlphaGLES vendorName) 0 (scenarioConfig other 24 8 0)).SURFACESCORE
        - 148 := by
    simp only [specTotal, scoreColumn, readConfigMax, readConfig, scenarioConfig, hes, hfb, hwin,
      hgl]
    simp
    ring
  have e1 := scoreColumn_total_spec b (avoidAlphaGLES vendorName) 0 (scenarioConfig other 24 8 0)
  have e2 := scoreColumn_total_spec b (avoidAlphaGLES vendorName) 1 (scenarioConfig other 16 0 4)
  rw [toInt32_of_range _ (by omega) (by omega)] at e1
  rw [hw2, toInt32_of_range _ (by omega) (by omega)] at e2
  have h1 : (scoreColumn b (avoidAlphaGLES vendorName) 0 (scenarioConfig other 24 8 0)).TOTALSCORE
      > 0 := by
    rw [e1]
    omega
  have h2 : ¬ (scoreColumn b (avoidAlphaGLES vendorName) 1 (scenarioConfig other 16 0 4)).TOTALSCORE
      > (scoreColumn b (avoidAlphaGLES vendorName) 0 (scenarioConfig other 24 8 0)).TOTALSCORE := by
    rw [e1, e2]
    omega
  unfold EGL_FindConfig
  simp only [displayOf, findLoop, List.foldl, findStep, FindState.init]
  simp [h1, h2]

/-- C12 with RGBA8888 as the remaining attributes. -/
theorem C12_scenario_first_wins_witness :
    (EGL_FindConfig desktopBuild
      (displayOf [scenarioConfig rgba8888 24 8 0, scenarioConfig rgba8888 16 0 4] none) 0).1
      = some (scenarioConfig rgba8888 24 8 0) :=
  C12_scenario_first_wins desktopBuild none rgba8888 0 rfl rfl
    (by decide) (by decide) (by decide) (by decide)

/-- C16 as stated fails: on a desktop build with vendor "ARM" the RGBA8888
config, whose renderable mask has the ES2 and ES3 bits, keeps the alpha score
`capped(8,8) = 8` instead of the inverted 0. -/
theorem C16_counterexample :
    ¬ ∀ (b : Build) (vendorName : Option String) (n : Nat) (c : EGLConfig),
        (scoreColumn b (avoidAlphaGLES vendorName) n c).ALPHASCORE
          = (if vendorName = some "ARM"
                ∧ (Int.testBit c.renderableType 2 = true ∨ Int.testBit c.renderableType 6 = true)
             then 8 - readConfigMax c .EGL_ALPHA_SIZE 8
             else readConfigMax c .EGL_ALPHA_SIZE 8) := by
  intro hall
  have h := hall desktopBuild (some "ARM") 0 rgba8888
  have hcode : (scoreColumn desktopBuild (avoidAlphaGLES (some "ARM")) 0 rgba8888).ALPHASCORE = 8 := by
    decide
  rw [hcode] at h
  revert h
  decide

/-- C16, amended: the alpha sub-score is `8 - capped(A,8)` exactly in the case
where the build is ES-only (`USING_GLES2`), the vendor string equals "ARM" and
the renderable mask has the ES3 bit (bit 6) or the ES2 bit (bit 2); in every
other case, in particular on every desktop build, it is `capped(A,8)`. -/
theorem C16_alpha_inversion_es_build_only (b : Build) (vendorName : Option String) (n : Nat)
    (c : EGLConfig) :
    (scoreColumn b (avoidAlphaGLES vendorName) n c).ALPHASCORE
      = (if vendorName = some "ARM" ∧ b.usingGLES2 = true
            ∧ (Int.testBit c.renderableType 2 = true ∨ Int.testBit c.renderableType 6 = true)
         then 8 - readConfigMax c .EGL_ALPHA_SIZE 8
         else readConfigMax c .EGL_ALPHA_SIZE 8) := by
  have ha : avoidAlphaGLES vendorName = decide (vendorName = some "ARM") := by
    cases hvn : vendorName with
    | none => simp [avoidAlphaGLES]
    | some s => by_cases hs : s = "ARM" <;> simp [avoidAlphaGLES, hs]
  simp only [scoreColumn, readConfig, es3_bit, es2_bit, ha]
  cases hb : b.usingGLES2 <;> cases h6 : Int.testBit c.renderableType 6 <;>
    cases h2 : Int.testBit c.renderableType 2 <;>
    by_cases hv : vendorName = some "ARM" <;> simp [hv]

/-- C17: on an ES-only build the ES renderable score is 100 with the ES3 bit
(bit 6), else 80 with the ES2 bit (bit 2), else 0, and the desktop score is 0;
on a desktop build the desktop score is 100 with the desktop-GL bit (bit 3),
else 80 with the ES3 bit, else 0, and the ES score is 0.  So one of the two
scores is 0 and their sum is 0, 80 or 100. -/
theorem C17_renderable_scores (b : Build) (avoidAlpha : Bool) (n : Nat) (c : EGLConfig) :
    (scoreColumn b avoidAlpha n c).RENDERABLESCOREGLES
      = (if b.usingGLES2 then
          (if Int.testBit c.renderableType 6 then 100
           else if Int.testBit c.renderableType 2 then 80 else 0)
         else 0) ∧
    (scoreColumn b avoidAlpha n c).RENDERABLESCOREGL
      = (if b.usingGLES2 then 0
         else (if Int.testBit c.renderableType 3 then 100
               else if Int.testBit c.renderableType 6 then 80 else 0)) ∧
    ((scoreColumn b avoidAlpha n c).RENDERABLESCOREGLES = 0
      ∨ (scoreColumn b avoidAlpha n c).RENDERABLESCOREGL = 0) ∧
    ((scoreColumn b avoidAlpha n c).RENDERABLESCOREGLES
        + (scoreColumn b avoidAlpha n c).RENDERABLESCOREGL = 0
      ∨ (scoreColumn b avoidAlpha n c).RENDERABLESCOREGLES
        + (scoreColumn b avoidAlpha n c).RENDERABLESCOREGL = 80
      ∨ (scoreColumn b avoidAlpha n c).RENDERABLESCOREGLES
        + (scoreColumn b avoidAlpha n c).RENDERABLESCOREGL = 100) := by
  simp only [scoreColumn, readConfig, es3_bit, es2_bit, gl_bit]
  cases hb : b.usingGLES2 <;> cases h6 : Int.testBit c.renderableType 6 <;>
    cases h2 : Int.testBit c.renderableType 2 <;>
    cases h3 : Int.testBit c.renderableType 3 <;> simp

/-- What one iteration appends to the table, whatever the best so far. -/
theorem findStep_table (b : Build) (a : Bool) (st : FindState) (c : EGLConfig) :
    (findStep b a st c).scoresTable = st.scoresTable ++ [scoreColumn b a st.scoresTableColumn c] ∧
    (findStep b a st c).scoresTableColumn = st.scoresTableColumn + 1 := by
  unfold findStep
  simp only
  split_ifs <;> exact ⟨rfl, rfl⟩

/-- The table after the loop: one column per config, in list order. -/
theorem findLoop_table (b : Build) (a : Bool) (l : List EGLConfig) :
    ∀ st : FindState, (findLoop b a st l).scoresTable
      = st.scoresTable ++ tableColumns b a st.scoresTableColumn l := by
  induction l with
  | nil =>
    intro st
    simp [findLoop, tableColumns]
  | cons c rest ih =>
    intro st
    have h := ih (findStep b a st c)
    obtain ⟨h1, h2⟩ := findStep_table b a st c
    simp only [findLoop, List.foldl_cons] at h ⊢
    rw [h, h1, h2]
    simp [tableColumns]

theorem tableColumns_getElem? (b : Build) (a : Bool) (l : List EGLConfig) :
    ∀ (k i : Nat) (c : EGLConfig), l[i]? = some c →
      (tableColumns b a k l)[i]? = some (scoreColumn b a (k + i) c) := by
  induction l with
  | nil =>
    intro k i c h
    simp at h
  | cons x rest ih =>
    intro k i c h
    cases i with
    | zero =>
      have hx : x = c := by simpa using h
      simp [tableColumns, hx]
    | succ i =>
      have h1 : rest[i]? = some c := by simpa using h
      have h2 := ih (k + 1) i c h1
      simp only [tableColumns, List.getElem?_cons_succ]
      rw [h2, show k + 1 + i = k + (i + 1) by omega]

/-- C18: the total score recorded for a config depends only on the config's
attributes, the build and the vendor string: wherever a config with given
attributes stands (position `i` of `l1`, position `j` of `l2`), whatever the
other configs are and whatever the loop state at entry (best score so far,
column index), the total in its column equals `totalScore`, hence is the
same in both runs. -/
theorem C18_score_is_pure (b : Build) (vendorName : Option String) (st1 st2 : FindState)
    (l1 l2 : List EGLConfig) (i j : Nat) (c : EGLConfig)
    (h1 : l1[i]? = some c) (h2 : l2[j]? = some c) :
    ∃ col1 col2 : ScoreColumn,
      (findLoop b (avoidAlphaGLES vendorName) st1 l1).scoresTable[st1.scoresTable.length + i]?
        = some col1 ∧
      (findLoop b (avoidAlphaGLES vendorName) st2 l2).scoresTable[st2.scoresTable.length + j]?
        = some col2 ∧
      col1.TOTALSCORE = totalScore b vendorName c ∧
      col2.TOTALSCORE = totalScore b vendorName c ∧
      col1.TOTALSCORE = col2.TOTALSCORE := by
  refine ⟨scoreColumn b (avoidAlphaGLES vendorName) (st1.scoresTableColumn + i) c,
    scoreColumn b (avoidAlphaGLES vendorName) (st2.scoresTableColumn + j) c, ?_, ?_, rfl, rfl, rfl⟩
  · rw [findLoop_table, List.getElem?_append_right (Nat.le_add_right _ _),
      Nat.add_sub_cancel_left]
    exact tableColumns_getElem? b _ l1 _ i c h1
  · rw [findLoop_table, List.getElem?_append_right (Nat.le_add_right _ _),
      Nat.add_sub_cancel_left]
    exact tableColumns_getElem? b _ l2 _ j c h2

/-- C18 for the RGBA8888 config at position 1 of one list and position 0 of
another, with different loop states at entry. -/
theorem C18_score_is_pure_witness :
    ∃ col1 col2 : ScoreColumn,
      (findLoop esBuild (avoidAlphaGLES none) FindState.init
          [rgb565, rgba8888]).scoresTable[FindState.init.scoresTable.length + 1]? = some col1 ∧
      (findLoop esBuild (avoidAlphaGLES none) { FindState.init with bestScore := 1000 }
          [rgba8888, zeroScoreConfig]).scoresTable[
            ({ FindState.init with bestScore := 1000 } : FindState).scoresTable.length + 0]?
        = some col2 ∧
      col1.TOTALSCORE = totalScore esBuild none rgba8888 ∧
      col2.TOTALSCORE = totalScore esBuild none rgba8888 ∧
      col1.TOTALSCORE = col2.TOTALSCORE :=
  C18_score_is_pure esBuild none FindState.init { FindState.init with bestScore := 1000 }
    [rgb565, rgba8888] [rgba8888, zeroScoreConfig] 1 0 rgba8888 rfl rfl

/-- C19: for a non-empty enumerated list, `EGL_FindConfig` returns null
exactly when no config has a total score strictly greater than 0, and it then
writes context version 0; a config it returns has a strictly positive total
score.  The total score is the `int` value the code computes, wrap-around
included. -/
theorem C19_null_iff_no_positive_score (b : Build) (d : EGLDisplay) (cv : Int)
    (h1 : d.getConfigsOk1 = true) (h2 : d.getConfigsOk2 = true) (hne : d.configs ≠ []) :
    ((EGL_FindConfig b d cv).1 = none ↔
      ¬ ∃ c ∈ d.configs, 0 < totalScore b d.vendorName c) ∧
    ((EGL_FindConfig b d cv).1 = none → (EGL_FindConfig b d cv).2 = 0) ∧
    (∀ c, (EGL_FindConfig b d cv).1 = some c → 0 < totalScore b d.vendorName c) := by
  have hlen : (d.configs.length == 0) = false := by simpa using hne
  have hres : EGL_FindConfig b d cv =
      ((findLoop b (avoidAlphaGLES d.vendorName) FindState.init d.configs).best,
       (findLoop b (avoidAlphaGLES d.vendorName) FindState.init d.configs).bestContextVersion) := by
    unfold EGL_FindConfig
    simp [h1, h2, hlen]
  obtain ⟨_, _, hmax, hbest⟩ := findLoop_spec b (avoidAlphaGLES d.vendorName) d.configs
  rw [hres]
  simp only
  unfold totalScore
  rcases hbest with ⟨hb, hs, hv, _⟩ | ⟨i, c0, hget, hb, _, hsc, hpos, _, _⟩
  · refine ⟨?_, fun _ => hv, ?_⟩
    · constructor
      · rintro _ ⟨c, hc, hcpos⟩
        have := hmax c hc
        omega
      · intro _
        exact hb
    · intro c hc
      rw [hb] at hc
      cases hc
  · refine ⟨?_, ?_, ?_⟩
    · constructor
      · intro hn
        rw [hb] at hn
        cases hn
      · intro hno
        exact absurd ⟨c0, List.getElem?_mem hget, by omega⟩ hno
    · intro hn
      rw [hb] at hn
      cases hn
    · intro c hc
      rw [hb] at hc
      have hcc : c0 = c := Option.some.inj hc
      subst hcc
      omega

/-- C19 at the one-element list of the zero-score config: null is returned
and version 0 written. -/
theorem C19_null_iff_no_positive_score_witness :
    (EGL_FindConfig desktopBuild (displayOf [zeroScoreConfig] none) 7).1 = none ∧
    (EGL_FindConfig desktopBuild (displayOf [zeroScoreConfig] none) 7).2 = 0 :=
  ⟨(C19_null_iff_no_positive_score desktopBuild (displayOf [zeroScoreConfig] none) 7
      rfl rfl (by decide)).1.mpr
      (by
        rintro ⟨c, hc, hpos⟩
        have hc0 : c = zeroScoreConfig := by simpa [displayOf] using hc
        subst hc0
        revert hpos
        decide),
   (C19_null_iff_no_positive_score desktopBuild (displayOf [zeroScoreConfig] none) 7
      rfl rfl (by decide)).2.1 (by decide)⟩

/-! ## Claims on teardown -/

/-- After `EGL_Close` every static is null. -/
theorem EGL_Close_globals (b : Build) (g : EGLGlobals) :
    (EGL_Close b g).1 = EGLGlobals.null := by
  obtain ⟨display, context, surface, native⟩ := g
  unfold EGL_Close EGLGlobals.null
  cases display <;> cases native <;> rfl

/-- With every static null, `EGL_Close` makes no call. -/
theorem EGL_Close_null (b : Build) : EGL_Close b EGLGlobals.null = (EGLGlobals.null, []) := rfl

/-- On an EGL build a second `ShutdownFromRenderThread` in a row makes no
call at all and changes nothing, from every state. -/
theorem shutdown_twice_egl (b : Build) (self : SDLGLGraphicsContext) (g : EGLGlobals)
    (hb : b.usingEGL = true) :
    ShutdownFromRenderThread b (ShutdownFromRenderThread b self g).1
        (ShutdownFromRenderThread b self g).2.1
      = ((ShutdownFromRenderThread b self g).1, (ShutdownFromRenderThread b self g).2.1, []) := by
  have h1 : (ShutdownFromRenderThread b self g).2.1 = EGLGlobals.null := by
    simp only [ShutdownFromRenderThread, hb, if_true]
    exact EGL_Close_globals b g
  have h2 : (ShutdownFromRenderThread b self g).1 = { self with draw_ := none } := by
    simp only [ShutdownFromRenderThread, hb, if_true]
  rw [h1, h2]
  simp only [ShutdownFromRenderThread, hb, if_true, EGL_Close_null]
  rfl

/-- On a non-EGL build with a null `glContext`, a second
`ShutdownFromRenderThread` in a row only repeats `SDL_GL_DeleteContext(NULL)`
and changes nothing. -/
theorem shutdown_twice_sdl (b : Build) (self : SDLGLGraphicsContext) (g : EGLGlobals)
    (hb : b.usingEGL = false) (hc : self.glContext = none) :
    ShutdownFromRenderThread b (ShutdownFromRenderThread b self g).1
        (ShutdownFromRenderThread b self g).2.1
      = ((ShutdownFromRenderThread b self g).1, (ShutdownFromRenderThread b self g).2.1,
         [CloseCall.SDL_GL_DeleteContext none]) := by
  simp [ShutdownFromRenderThread, hb, hc]

/-- C13: teardown is idempotent.  From every state of an EGL build, and from
every state of a non-EGL build in which `glContext` is null (as it is in
every state the code produces, initialisation completed or not), the second
of two `ShutdownFromRenderThread` calls in a row releases no handle and
leaves the state as the first call left it; on an EGL build it makes no call
at all. -/
theorem C13_second_shutdown_releases_nothing (b : Build) (self : SDLGLGraphicsContext)
    (g : EGLGlobals) (h : b.usingEGL = true ∨ self.glContext = none) :
    releasedHandles
      (ShutdownFromRenderThread b (ShutdownFromRenderThread b self g).1
        (ShutdownFromRenderThread b self g).2.1).2.2 = [] ∧
    (ShutdownFromRenderThread b (ShutdownFromRenderThread b self g).1
        (ShutdownFromRenderThread b self g).2.1).1 = (ShutdownFromRenderThread b self g).1 ∧
    (ShutdownFromRenderThread b (ShutdownFromRenderThread b self g).1
        (ShutdownFromRenderThread b self g).2.1).2.1 = (ShutdownFromRenderThread b self g).2.1 ∧
    (b.usingEGL = true →
      (ShutdownFromRenderThread b (ShutdownFromRenderThread b self g).1
        (ShutdownFromRenderThread b self g).2.1).2.2 = []) := by
  cases hb : b.usingEGL
  · have hc : self.glContext = none := by
      rcases h with h | h
      · rw [hb] at h
        cases h
      · exact h
    rw [shutdown_twice_sdl b self g hb hc]
    refine ⟨rfl, rfl, rfl, ?_⟩
    intro ht
    cases ht
  · rw [shutdown_twice_egl b self g hb]
    exact ⟨rfl, rfl, rfl, fun _ => rfl⟩

/-- C13 on a non-EGL build from a state where initialisation never set
`glContext`, and on an EGL build from a fully initialised state: in both the
second call releases nothing. -/
theorem C13_second_shutdown_releases_nothing_witness :
    releasedHandles
      (ShutdownFromRenderThread sdlDesktopBuild
        (ShutdownFromRenderThread sdlDesktopBuild freshContext EGLGlobals.null).1
        (ShutdownFromRenderThread sdlDesktopBuild freshContext EGLGlobals.null).2.1).2.2 = [] ∧
    (ShutdownFromRenderThread desktopBuild
        (ShutdownFromRenderThread desktopBuild liveContext EGLGlobals.live).1
        (ShutdownFromRenderThread desktopBuild liveContext EGLGlobals.live).2.1).2.2 = [] :=
  ⟨(C13_second_shutdown_releases_nothing sdlDesktopBuild freshContext EGLGlobals.null
      (Or.inr rfl)).1,
   (C13_second_shutdown_releases_nothing desktopBuild liveContext EGLGlobals.live
      (Or.inl rfl)).2.2.2 rfl⟩

/-- C14 as stated fails: on a fully initialised EGL state teardown destroys
the context before the surface (not the surface before the context), and the
calls it makes contain no window destruction. -/
theorem C14_counterexample :
    (ShutdownFromRenderThread desktopBuild liveContext EGLGlobals.live).2.2
      = [CloseCall.deleteDraw 5, CloseCall.eglMakeCurrentNone 1,
         CloseCall.eglDestroyContext 1 2, CloseCall.eglDestroySurface 1 3,
         CloseCall.eglTerminate 1, CloseCall.XCloseDisplay 4] ∧
    ¬ (List.indexOf (CloseCall.eglDestroySurface 1 3)
          (ShutdownFromRenderThread desktopBuild liveContext EGLGlobals.live).2.2
        < List.indexOf (CloseCall.eglDestroyContext 1 2)
          (ShutdownFromRenderThread desktopBuild liveContext EGLGlobals.live).2.2) := by
  decide

/-- C14, amended: on an EGL build, teardown of a fully initialised state
(draw context, EGL display, context, surface and native display all present)
releases each of them exactly once, in this order: draw context, EGL context,
EGL surface, `eglTerminate` of the display connection, and (except on a
framebuffer-device build) `XCloseDisplay` of the native display; afterwards
every handle is null.  No window is destroyed. -/
theorem C14_teardown_order (b : Build) (self : SDLGLGraphicsContext)
    (draw display context surface native : Nat)
    (hb : b.usingEGL = true) (hd : self.draw_ = some draw) :
    ShutdownFromRenderThread b self
        { g_eglDisplay := some display, g_eglContext := some context,
          g_eglSurface := some surface, g_Display := some native }
      = ({ self with draw_ := none }, EGLGlobals.null,
         [CloseCall.deleteDraw draw, CloseCall.eglMakeCurrentNone display,
          CloseCall.eglDestroyContext display context,
          CloseCall.eglDestroySurface display surface,
          CloseCall.eglTerminate display]
          ++ (if b.usingFBDEV then [] else [CloseCall.XCloseDisplay native])) := by
  simp only [ShutdownFromRenderThread, hb, hd, if_true, EGL_Close, EGLGlobals.null]
  cases b.usingFBDEV <;> simp

/-- C14 (amended) on the windowed desktop EGL build. -/
theorem C14_teardown_order_witness :
    ShutdownFromRenderThread desktopBuild liveContext
        { g_eglDisplay := some 1, g_eglContext := some 2,
          g_eglSurface := some 3, g_Display := some 4 }
      = ({ liveContext with draw_ := none }, EGLGlobals.null,
         [CloseCall.deleteDraw 5, CloseCall.eglMakeCurrentNone 1,
          CloseCall.eglDestroyContext 1 2,
          CloseCall.eglDestroySurface 1 3,
          CloseCall.eglTerminate 1]
          ++ (if desktopBuild.usingFBDEV then [] else [CloseCall.XCloseDisplay 4])) :=
  C14_teardown_order desktopBuild liveContext 5 1 2 3 4 rfl rfl

/-! ## Windows created and destroyed by the candidate loop -/

theorem liveAfter_append (live : List Nat) (l₁ l₂ : List Call) :
    liveAfter live (l₁ ++ l₂) = liveAfter (liveAfter live l₁) l₂ := by
  simp [liveAfter, List.foldl_append]

theorem liveHistory_append (l₁ l₂ : List Call) :
    ∀ live : List Nat, liveHistory live (l₁ ++ l₂)
      = liveHistory live l₁ ++ liveHistory (liveAfter live l₁) l₂ := by
  induction l₁ with
  | nil =>
    intro live
    rfl
  | cons c rest ih =>
    intro live
    have h := ih (stepLive live c)
    show stepLive live c :: liveHistory (stepLive live c) (rest ++ l₂)
      = (stepLive live c :: liveHistory (stepLive live c) rest)
        ++ liveHistory (liveAfter (stepLive live c) rest) l₂
    rw [h]
    rfl

/-- A failing iteration destroys the window it created, if any, and nothing
else; it leaves no window behind. -/
theorem failureCalls_windows (b : Build) (p : SDLPlatform) (k : Nat) (ver : GLVersionPair) :
    destroyedWindows (failureCalls b p k ver) = contextFailures (failureCalls b p k ver) ∧
    createdWindows (failureCalls b p k ver) = destroyedWindows (failureCalls b p k ver) ∧
    (∀ w ∈ createdWindows (failureCalls b p k ver), w = k) ∧
    liveAfter [] (failureCalls b p k ver) = [] ∧
    (∀ live ∈ liveHistory [] (failureCalls b p k ver), live.length ≤ 1) ∧
    (∀ (prev : Bool) (rest : List Call),
      noDestroyAfterFailedCreate prev (failureCalls b p k ver ++ rest)
        = noDestroyAfterFailedCreate (!p.createWindow k) rest) := by
  cases h : p.createWindow k <;>
    simp [failureCalls, requestCalls, destroyedWindows, contextFailures, createdWindows,
      liveAfter, liveHistory, stepLive, noDestroyAfterFailedCreate, h]

/-- The iteration that ends in `break` creates window `k` and destroys none. -/
theorem successCalls_windows (b : Build) (k : Nat) (ver : GLVersionPair) :
    destroyedWindows (successCalls b k ver) = [] ∧
    contextFailures (successCalls b k ver) = [] ∧
    createdWindows (successCalls b k ver) = [k] ∧
    liveAfter [] (successCalls b k ver) = [k] ∧
    (∀ live ∈ liveHistory [] (successCalls b k ver), live.length ≤ 1) ∧
    (∀ prev : Bool, noDestroyAfterFailedCreate prev (successCalls b k ver) = true) := by
  simp [successCalls, requestCalls, destroyedWindows, contextFailures, createdWindows,
    liveAfter, liveHistory, stepLive, noDestroyAfterFailedCreate]

theorem destroyedWindows_append (l₁ l₂ : List Call) :
    destroyedWindows (l₁ ++ l₂) = destroyedWindows l₁ ++ destroyedWindows l₂ := by
  simp [destroyedWindows, List.filterMap_append]

theorem contextFailures_append (l₁ l₂ : List Call) :
    contextFailures (l₁ ++ l₂) = contextFailures l₁ ++ contextFailures l₂ := by
  simp [contextFailures, List.filterMap_append]

theorem createdWindows_append (l₁ l₂ : List Call) :
    createdWindows (l₁ ++ l₂) = createdWindows l₁ ++ createdWindows l₂ := by
  simp [createdWindows, List.filterMap_append]

/-- The windows of a run of failing iterations. -/
theorem failuresCalls_windows (b : Build) (p : SDLPlatform) (vers : List GLVersionPair) :
    ∀ k : Nat,
      destroyedWindows (failuresCalls b p k vers) = contextFailures (failuresCalls b p k vers) ∧
      createdWindows (failuresCalls b p k vers) = destroyedWindows (failuresCalls b p k vers) ∧
      (∀ w ∈ createdWindows (failuresCalls b p k vers), k ≤ w ∧ w < k + vers.length) ∧
      liveAfter [] (failuresCalls b p k vers) = [] ∧
      (∀ live ∈ liveHistory [] (failuresCalls b p k vers), live.length ≤ 1) := by
  induction vers with
  | nil =>
    intro k
    simp [failuresCalls, destroyedWindows, contextFailures, createdWindows, liveAfter,
      liveHistory]
  | cons v rest ih =>
    intro k
    obtain ⟨a1, a2, a3, a4, a5, _⟩ := failureCalls_windows b p k v
    obtain ⟨b1, b2, b3, b4, b5⟩ := ih (k + 1)
    simp only [failuresCalls]
    refine ⟨?_, ?_, ?_, ?_, ?_⟩
    · rw [destroyedWindows_append, contextFailures_append, a1, b1]
    · rw [createdWindows_append, destroyedWindows_append, a2, b2]
    · intro w hw
      rw [createdWindows_append] at hw
      rcases List.mem_append.mp hw with h | h
      · have := a3 w h
        simp only [List.length_cons]
        omega
      · have := b3 w h
        simp only [List.length_cons]
        omega
    · rw [liveAfter_append, a4, b4]
    · intro live hl
      rw [liveHistory_append, a4] at hl
      rcases List.mem_append.mp hl with h | h
      · exact a5 live h
      · exact b5 live h

theorem failuresCalls_noDestroy (b : Build) (p : SDLPlatform) (vers : List GLVersionPair)
    (tail : List Call) (ht : ∀ prev : Bool, noDestroyAfterFailedCreate prev tail = true) :
    ∀ (k : Nat) (prev : Bool),
      noDestroyAfterFailedCreate prev (failuresCalls b p k vers ++ tail) = true := by
  induction vers with
  | nil =>
    intro k prev
    simpa [failuresCalls] using ht prev
  | cons v rest ih =>
    intro k prev
    simp only [failuresCalls, List.append_assoc]
    rw [(failureCalls_windows b p k v).2.2.2.2.2 prev]
    exact ih (k + 1) _

/-- The log and the result of the candidate loop as run by `Init`. -/
theorem attemptLoop_log (b : Build) (p : SDLPlatform) (pending0 : GLAttrs) :
    ((attemptLoop b p (attemptVersions b) (SDLState.entry pending0)).glContext = none ∧
      (attemptLoop b p (attemptVersions b) (SDLState.entry pending0)).log
        = failuresCalls b p 0 (attemptVersions b)) ∨
    (∃ (k : Nat) (ver : GLVersionPair), (attemptVersions b)[k]? = some ver ∧
      (∀ i, i < k → attemptOk p i = false) ∧ attemptOk p k = true ∧
      (attemptLoop b p (attemptVersions b) (SDLState.entry pending0)).glContext = some k ∧
      (attemptLoop b p (attemptVersions b) (SDLState.entry pending0)).window = some k ∧
      (attemptLoop b p (attemptVersions b) (SDLState.entry pending0)).log
        = failuresCalls b p 0 ((attemptVersions b).take k) ++ successCalls b k ver) := by
  rcases first_ok_or_all_fail p (attemptVersions b).length with hall | ⟨k, hk, hf, hok⟩
  · left
    obtain ⟨h1, _, h3⟩ := attemptLoop_all_fail b p (attemptVersions b)
      (SDLState.entry pending0) rfl
      (by intro i hi; simpa [SDLState.entry] using hall i hi)
    exact ⟨h1, by simpa [SDLState.entry] using h3⟩
  · right
    have hget : (attemptVersions b)[k]? = some ((attemptVersions b)[k]) :=
      List.getElem?_eq_getElem hk
    obtain ⟨h1, h2, h3⟩ := attemptLoop_first_ok b p (attemptVersions b)
      (SDLState.entry pending0) k _ rfl hget
      (by intro i hi; simpa [SDLState.entry] using hf i hi)
      (by simpa [SDLState.entry] using hok)
    exact ⟨k, _, hget, hf, hok, by simpa [SDLState.entry] using h1,
      by simpa [SDLState.entry] using h2, by simpa [SDLState.entry] using h3⟩

/-- C15: in the candidate loop of `Init` the destroyed windows are, in
order, exactly the windows on which context creation failed, each of them a
window that was created; no `SDL_DestroyWindow` comes directly after a failed
`SDL_CreateWindow`; the window of the successful candidate is created and
never destroyed; and after every call of the loop at most one window exists
that was created and not destroyed. -/
theorem C15_window_destroyed_iff_context_failed (b : Build) (p : SDLPlatform)
    (pending0 : GLAttrs) :
    destroyedWindows (attemptLoop b p (attemptVersions b) (SDLState.entry pending0)).log
      = contextFailures (attemptLoop b p (attemptVersions b) (SDLState.entry pending0)).log ∧
    (∀ w ∈ contextFailures (attemptLoop b p (attemptVersions b) (SDLState.entry pending0)).log,
      w ∈ createdWindows (attemptLoop b p (attemptVersions b) (SDLState.entry pending0)).log) ∧
    noDestroyAfterFailedCreate false
      (attemptLoop b p (attemptVersions b) (SDLState.entry pending0)).log = true ∧
    (∀ w, (attemptLoop b p (attemptVersions b) (SDLState.entry pending0)).glContext = some w →
      w ∈ createdWindows (attemptLoop b p (attemptVersions b) (SDLState.entry pending0)).log ∧
      w ∉ destroyedWindows (attemptLoop b p (attemptVersions b) (SDLState.entry pending0)).log) ∧
    (∀ live ∈ liveHistory [] (attemptLoop b p (attemptVersions b) (SDLState.entry pending0)).log,
      live.length ≤ 1) := by
  rcases attemptLoop_log b p pending0 with ⟨hg, hlog⟩ | ⟨k, ver, _, _, _, hg, _, hlog⟩
  · obtain ⟨f1, f2, _, _, f5⟩ := failuresCalls_windows b p (attemptVersions b) 0
    rw [hlog, hg]
    refine ⟨f1, ?_, ?_, ?_, f5⟩
    · intro w hw
      rw [f2, f1]
      exact hw
    · have := failuresCalls_noDestroy b p (attemptVersions b) [] (fun _ => rfl) 0 false
      simpa using this
    · intro w hw
      cases hw
  · obtain ⟨f1, f2, f3, f4, f5⟩ := failuresCalls_windows b p ((attemptVersions b).take k) 0
    obtain ⟨s1, s2, s3, _, s5, s6⟩ := successCalls_windows b k ver
    rw [hlog, hg]
    refine ⟨?_, ?_, ?_, ?_, ?_⟩
    · rw [destroyedWindows_append, contextFailures_append, f1, s1, s2]
    · intro w hw
      rw [contextFailures_append, s2, List.append_nil] at hw
      rw [createdWindows_append, f2, f1]
      exact List.mem_append_left _ hw
    · exact failuresCalls_noDestroy b p _ _ s6 0 false
    · intro w hw
      have hwk : k = w := Option.some.inj hw
      subst hwk
      constructor
      · rw [createdWindows_append, s3]
        exact List.mem_append_right _ (List.mem_singleton_self k)
      · rw [destroyedWindows_append, s1, List.append_nil, ← f2]
        intro hmem
        have := (f3 k hmem).2
        simp only [List.length_take] at this
        omega
    · intro live hl
      rw [liveHistory_append, f4] at hl
      rcases List.mem_append.mp hl with h | h
      · exact f5 live h
      · exact s5 live h

/-- C15 on an ES build where no context can be created: the loop creates
windows 0, 1, 2, 3 and destroys each of them. -/
theorem C15_window_destroyed_iff_context_failed_witness :
    destroyedWindows
        (attemptLoop esBuild noContext (attemptVersions esBuild)
          (SDLState.entry unconstrainedAttrs)).log = [0, 1, 2, 3] ∧
    createdWindows
        (attemptLoop esBuild noContext (attemptVersions esBuild)
          (SDLState.entry unconstrainedAttrs)).log = [0, 1, 2, 3] ∧
    (1 : Nat) ∈ createdWindows
        (attemptLoop esBuild noContext (attemptVersions esBuild)
          (SDLState.entry unconstrainedAttrs)).log :=
  ⟨by decide, by decide,
   (C15_window_destroyed_iff_context_failed esBuild noContext unconstrainedAttrs).2.1 1
     (by decide)⟩

/-! ## The order of the version candidates -/

/-- In both builds each candidate is a higher version than every later one. -/
theorem attemptVersions_decreasing (b : Build) :
    List.Pairwise (fun x y => GLVersionPair.lexLt y x) (attemptVersions b) := by
  cases hb : b.usingGLES2 <;>
    simp [attemptVersions, hb, GLVersionPair.lexLt]

/-- C20: in both builds the candidate list is strictly decreasing in the
lexicographic (major, minor) order; hence, when candidate `k` is the first to
succeed, the version requested by the last attempt of `Init` (the negotiated
one) is that of candidate `k`, and every other candidate whose window and
context creation succeed has a strictly lower version. -/
theorem C20_negotiated_version_is_greatest (b : Build) (ndebug : Bool) (p : SDLPlatform)
    (d : EGLDisplay) (g : EGLGlobals) (pending0 : GLAttrs) :
    List.Pairwise (fun x y => GLVersionPair.lexLt y x) (attemptVersions b) ∧
    ∀ (k : Nat) (ver : GLVersionPair), (attemptVersions b)[k]? = some ver →
      (∀ i, i < k → attemptOk p i = false) → attemptOk p k = true →
      (windowAttempts (Init b ndebug p d g pending0).log).getLast?
        = some (candidateAttrs b ver) ∧
      ∀ (j : Nat) (other : GLVersionPair), (attemptVersions b)[j]? = some other →
        attemptOk p j = true → j ≠ k → GLVersionPair.lexLt other ver := by
  refine ⟨attemptVersions_decreasing b, ?_⟩
  intro k ver hget hf hok
  have hk : k < (attemptVersions b).length := by
    by_contra hge
    rw [List.getElem?_eq_none (not_lt.mp hge)] at hget
    cases hget
  constructor
  · rw [(Init_attempts_first_ok b ndebug p d g pending0 k hk hf hok).1, List.take_succ, hget]
    simp only [Option.toList, List.map_append, List.map_cons, List.map_nil]
    exact List.getLast?_concat _
  · intro j other hj hokj hjk
    have hkj : k < j := by
      rcases Nat.lt_trichotomy j k with h | h | h
      · rw [hf j h] at hokj
        cases hokj
      · exact absurd h hjk
      · exact h
    have hjlen : j < (attemptVersions b).length := by
      by_contra hge
      rw [List.getElem?_eq_none (not_lt.mp hge)] at hj
      cases hj
    have hpw := List.pairwise_iff_getElem.mp (attemptVersions_decreasing b) k j hk hjlen hkj
    have e1 : (attemptVersions b)[k] = ver := by
      rw [List.getElem?_eq_getElem hk] at hget
      exact Option.some.inj hget
    have e2 : (attemptVersions b)[j] = other := by
      rw [List.getElem?_eq_getElem hjlen] at hj
      exact Option.some.inj hj
    rw [e1, e2] at hpw
    exact hpw

/-- C20 on an ES build where 3.2 fails and every later candidate would
succeed: 3.1 is negotiated and 3.0, one of the others that would succeed, is
a lower version. -/
theorem C20_negotiated_version_is_greatest_witness :
    (windowAttempts (Init esBuild true secondAttemptOk (displayOf [rgba8888] none)
        EGLGlobals.null unconstrainedAttrs).log).getLast?
      = some (candidateAttrs esBuild { major := 3, minor := 1 }) ∧
    GLVersionPair.lexLt { major := 3, minor := 0 } { major := 3, minor := 1 } :=
  ⟨((C20_negotiated_version_is_greatest esBuild true secondAttemptOk
        (displayOf [rgba8888] none) EGLGlobals.null unconstrainedAttrs).2 1
        { major := 3, minor := 1 } rfl
        (fun i hi => by
          have h0 : i = 0 := by omega
          subst h0
          rfl)
        rfl).1,
   ((C20_negotiated_version_is_greatest esBuild true secondAttemptOk
        (displayOf [rgba8888] none) EGLGlobals.null unconstrainedAttrs).2 1
        { major := 3, minor := 1 } rfl
        (fun i hi => by
          have h0 : i = 0 := by omega
          subst h0
          rfl)
        rfl).2 2 { major := 3, minor := 0 } rfl rfl (by decide)⟩

end SDLGL
